import Mathlib

/-!
# rci process connector: decoder, frame receiver and control path

A shallow embedding of `src/src/proconn.cpp` (class `rci::proconn`) together with
the data types of `src/include/rci/proconn.hpp`.

Conventions of the embedding

* Memory reachable through a `const uint8_t*` is a `List Nat`: element `i` is the
  byte at offset `i` from the pointer (reduced modulo 256 when it is read).  The
  list is the receive buffer from that pointer onwards, so it may well be longer
  than the length the message states.  Offsets past the end of the list read as
  zero, the content of the value-initialised receive buffer of `run()`.
* Multi-byte integers are little endian, the host byte order netlink uses on the
  supported targets.
* `pid_t` / `__kernel_pid_t` are `Int` (32-bit signed), the unsigned
  kernel types are `Nat`, `ssize_t` is `Int`; sizes and offsets are those of the
  LP64 Linux targets.
* A handler is a function that may throw; calling it is recorded in the list of
  `Invocation`s of an `Outcome`, which is what an observer of the engine sees.
* What the operating system hands back (`recvfrom`, `sendmsg`, `errno`, the thread
  id) is an argument of the function that uses it; the system calls of the
  control path are recorded in the `Syscall`s of an `Effect`.
-/

namespace rci

/-! ## Raw memory access -/

/-- The byte at offset `i` from the pointer. -/
def byte_at (data : List Nat) (i : Nat) : Nat :=
  data.getD i 0 % 256

/-- Load of a `__u16` at byte offset `off`. -/
def read_u16 (data : List Nat) (off : Nat) : Nat :=
  byte_at data off + 256 * byte_at data (off + 1)

/-- Load of a `__u32` at byte offset `off`. -/
def read_u32 (data : List Nat) (off : Nat) : Nat :=
  byte_at data off + 256 * byte_at data (off + 1)
    + 65536 * byte_at data (off + 2) + 16777216 * byte_at data (off + 3)

/-- Load of a `__u64` at byte offset `off`. -/
def read_u64 (data : List Nat) (off : Nat) : Nat :=
  read_u32 data off + 4294967296 * read_u32 data (off + 4)

/-- Reinterpretation of a 32-bit pattern as a signed `int`. -/
def to_int32 (v : Nat) : Int :=
  if v % 4294967296 < 2147483648 then (v % 4294967296 : Nat)
  else ((v % 4294967296 : Nat) : Int) - 4294967296

/-- Load of a `__kernel_pid_t` (a signed 32-bit integer) at byte offset `off`. -/
def read_pid (data : List Nat) (off : Nat) : Int :=
  to_int32 (read_u32 data off)

/-- Construction of a `std::string` from a `const char*` at offset `off`: the
bytes from there up to, not including, the first zero byte. -/
def c_string (data : List Nat) (off : Nat) : List Nat :=
  ((data.drop off).map (fun b => b % 256)).takeWhile (fun b => b != 0)

/-! ## `proconn_event`: the wire layout (proconn.cpp, lines 34-128) -/

/-- Enumerators of `proconn_event::what`; `value` gives the numbers. -/
inductive what
  | PROC_EVENT_FORK
  | PROC_EVENT_EXEC
  | PROC_EVENT_UID
  | PROC_EVENT_GID
  | PROC_EVENT_SID
  | PROC_EVENT_PTRACE
  | PROC_EVENT_COMM
  | PROC_EVENT_COREDUMP
  | PROC_EVENT_EXIT
  deriving DecidableEq, Repr

/-- The number of each enumerator of `proconn_event::what`. -/
def what.value : what → Nat
  | .PROC_EVENT_FORK => 0x00000001
  | .PROC_EVENT_EXEC => 0x00000002
  | .PROC_EVENT_UID => 0x00000004
  | .PROC_EVENT_GID => 0x00000040
  | .PROC_EVENT_SID => 0x00000080
  | .PROC_EVENT_PTRACE => 0x00000100
  | .PROC_EVENT_COMM => 0x00000200
  | .PROC_EVENT_COREDUMP => 0x40000000
  | .PROC_EVENT_EXIT => 0x80000000

/-- Size of `what`, `cpu` and `timestamp_ns`: `proconn_event_header_size()`. -/
def proconn_event_header_size : Nat := 4 + 4 + 8

/-- Offset of the `what` member. -/
def offsetof_what : Nat := 0
/-- Offset of the `cpu` member. -/
def offsetof_cpu : Nat := 4
/-- Offset of the `timestamp_ns` member (aligned to 8). -/
def offsetof_timestamp_ns : Nat := 8
/-- Offset of the `event_data` union, the last member. -/
def offsetof_event_data : Nat := 16

/-- Value of `sizeof(evt->event_data.coredump)`: four `__kernel_pid_t`. -/
def sizeof_coredump_proc_event : Nat := 4 + 4 + 4 + 4

/-- Value of `sizeof(evt->event_data.exit)`: two `__kernel_pid_t`, two `__u32`,
two `__kernel_pid_t`. -/
def sizeof_exit_proc_event : Nat := 4 + 4 + 4 + 4 + 4 + 4

/-! ## The event types handed to handlers (proconn.hpp, lines 20-86) -/

/-- Constant `proconn::MISSING_PID`. -/
def MISSING_PID : Int := 0

/-- Record `proconn::metadata`. -/
structure metadata where
  cpu : Nat
  timestamp_ns : Nat
  deriving DecidableEq, Repr

/-- Record `proconn::task_ids`. -/
structure task_ids where
  tid : Int
  pid : Int
  deriving DecidableEq, Repr

/-- Record `proconn::fork_event`. -/
structure fork_event where
  meta : metadata
  parent : task_ids
  child : task_ids
  deriving DecidableEq, Repr

/-- Record `proconn::exec_event`. -/
structure exec_event where
  meta : metadata
  process : task_ids
  deriving DecidableEq, Repr

/-- Record `proconn::uid_event`. -/
structure uid_event where
  meta : metadata
  process : task_ids
  ruid : Nat
  euid : Nat
  deriving DecidableEq, Repr

/-- Record `proconn::gid_event`. -/
structure gid_event where
  meta : metadata
  process : task_ids
  rgid : Nat
  egid : Nat
  deriving DecidableEq, Repr

/-- Record `proconn::sid_event`. -/
structure sid_event where
  meta : metadata
  process : task_ids
  deriving DecidableEq, Repr

/-- Record `proconn::ptrace_event`. -/
structure ptrace_event where
  meta : metadata
  process : task_ids
  tracer : task_ids
  deriving DecidableEq, Repr

/-- Record `proconn::comm_event`; the `std::string` is its list of bytes. -/
structure comm_event where
  meta : metadata
  process : task_ids
  comm : List Nat
  deriving DecidableEq, Repr

/-- Record `proconn::coredump_event`. -/
structure coredump_event where
  meta : metadata
  process : task_ids
  parent : task_ids
  deriving DecidableEq, Repr

/-- Record `proconn::exit_event`. -/
structure exit_event where
  meta : metadata
  process : task_ids
  exit_code : Nat
  exit_signal : Nat
  parent : task_ids
  deriving DecidableEq, Repr

/-! ## Handlers, observations and outcomes -/

/-- One call of a registered handler, with the event it was given. -/
inductive Invocation
  | fork (e : fork_event)
  | exec (e : exec_event)
  | uid (e : uid_event)
  | gid (e : gid_event)
  | sid (e : sid_event)
  | ptrace (e : ptrace_event)
  | comm (e : comm_event)
  | coredump (e : coredump_event)
  | exit (e : exit_event)
  deriving DecidableEq, Repr

/-- The kind of handler an invocation went to. -/
def Invocation.kind : Invocation → what
  | .fork _ => .PROC_EVENT_FORK
  | .exec _ => .PROC_EVENT_EXEC
  | .uid _ => .PROC_EVENT_UID
  | .gid _ => .PROC_EVENT_GID
  | .sid _ => .PROC_EVENT_SID
  | .ptrace _ => .PROC_EVENT_PTRACE
  | .comm _ => .PROC_EVENT_COMM
  | .coredump _ => .PROC_EVENT_COREDUMP
  | .exit _ => .PROC_EVENT_EXIT

/-- Modelled from the spec: the exception class `proconn_error` is declared in
`rci/proconn_error.hpp`, which is not among the sources.  It is built from a
message and a code (proconn.cpp, lines 260, 265 and 278) and carries the
ReceiveError, UnexpectedSenderError and ProtocolError of section 7 of the
specification.  The other two alternatives are `std::system_error(code,
category, message)`, thrown by the control path, and whatever a handler throws
(the engine has no `try`). -/
inductive failure
  | proconn_error (message : String) (code : Int)
  | system_error (code : Int) (message : String)
  | handler_exception (message : String)
  deriving DecidableEq, Repr

/-- How a call ended: it returned a value, it threw, or it is still executing
when the step budget of the model ran out. -/
inductive Completion (α : Type)
  | returned (value : α)
  | raised (e : failure)
  | running
  deriving DecidableEq, Repr

/-- The observable result of a call: the handler invocations it made, in order,
and how it ended. -/
structure Outcome (α : Type) where
  calls : List Invocation
  status : Completion α
  deriving DecidableEq, Repr

/-- A call that returns `v` without invoking anything. -/
def Outcome.ret {α : Type} (v : α) : Outcome α :=
  { calls := [], status := .returned v }

/-- A `throw` without any invocation. -/
def Outcome.throw {α : Type} (e : failure) : Outcome α :=
  { calls := [], status := .raised e }

/-- Sequencing of statements: `k` runs only if `o` returned; the invocations of
`o` come first. -/
def Outcome.and_then {α β : Type} (o : Outcome α) (k : α → Outcome β) : Outcome β :=
  match o.status with
  | .returned v => { calls := o.calls ++ (k v).calls, status := (k v).status }
  | .raised e => { calls := o.calls, status := .raised e }
  | .running => { calls := o.calls, status := .running }

/-- A non-empty `std::function<void(E)>`: it may return or throw. -/
abbrev Handler (ε : Type) : Type := ε → Except String Unit

/-- Record `proconn::event_callbacks`: `none` is an empty `std::function`. -/
structure event_callbacks where
  fork : Option (Handler fork_event)
  exec : Option (Handler exec_event)
  uid : Option (Handler uid_event)
  gid : Option (Handler gid_event)
  sid : Option (Handler sid_event)
  ptrace : Option (Handler ptrace_event)
  comm : Option (Handler comm_event)
  coredump : Option (Handler coredump_event)
  exit : Option (Handler exit_event)

/-- Whether the member of `event_callbacks` for a kind is non-empty. -/
def event_callbacks.registered (cb : event_callbacks) : what → Bool
  | .PROC_EVENT_FORK => cb.fork.isSome
  | .PROC_EVENT_EXEC => cb.exec.isSome
  | .PROC_EVENT_UID => cb.uid.isSome
  | .PROC_EVENT_GID => cb.gid.isSome
  | .PROC_EVENT_SID => cb.sid.isSome
  | .PROC_EVENT_PTRACE => cb.ptrace.isSome
  | .PROC_EVENT_COMM => cb.comm.isSome
  | .PROC_EVENT_COREDUMP => cb.coredump.isSome
  | .PROC_EVENT_EXIT => cb.exit.isSome

/-- The statement `if (_callbacks.k) { _callbacks.k(e); }`: nothing for an empty
member, otherwise one recorded call that returns or throws. -/
def call_if_set {ε : Type} (h : Option (Handler ε)) (mk : ε → Invocation) (e : ε) :
    Outcome Unit :=
  match h with
  | none => Outcome.ret ()
  | some f =>
    { calls := [mk e]
      status := match f e with
        | .ok _ => .returned ()
        | .error m => .raised (.handler_exception m) }

/-! ## `proconn::dispatch_event` (proconn.cpp, lines 318-464) -/

/-- Function `proconn::dispatch_event(const uint8_t* data, uint16_t len)`.  The
members of `evt->event_data` are read at `offsetof_event_data` plus their offset
in the member struct; the `switch` is the chain of tests on `evt->what`, its
`default` the final `else`.  The label of the uid case is spelled
`proc_event::PROC_EVENT_UID`, the enumerator of `<linux/cn_proc.h>`, which has
the value 0x4 of `proconn_event::PROC_EVENT_UID`.  `len` is a `uint16_t`; the
caller passes the 16-bit member `msg->len`. -/
def dispatch_event (cb : event_callbacks) (data : List Nat) (len : Nat) : Outcome Unit :=
  let evt_what := read_u32 data offsetof_what
  let meta : metadata :=
    { cpu := read_u32 data offsetof_cpu, timestamp_ns := read_u64 data offsetof_timestamp_ns }
  let ed := offsetof_event_data
  if evt_what = what.PROC_EVENT_FORK.value then
    call_if_set cb.fork .fork
      { meta := meta
        parent := { tid := read_pid data ed, pid := read_pid data (ed + 4) }
        child := { tid := read_pid data (ed + 8), pid := read_pid data (ed + 12) } }
  else if evt_what = what.PROC_EVENT_EXEC.value then
    call_if_set cb.exec .exec
      { meta := meta
        process := { tid := read_pid data ed, pid := read_pid data (ed + 4) } }
  else if evt_what = what.PROC_EVENT_UID.value then
    call_if_set cb.uid .uid
      { meta := meta
        process := { tid := read_pid data ed, pid := read_pid data (ed + 4) }
        ruid := read_u32 data (ed + 8)
        euid := read_u32 data (ed + 12) }
  else if evt_what = what.PROC_EVENT_GID.value then
    call_if_set cb.gid .gid
      { meta := meta
        process := { tid := read_pid data ed, pid := read_pid data (ed + 4) }
        rgid := read_u32 data (ed + 8)
        egid := read_u32 data (ed + 12) }
  else if evt_what = what.PROC_EVENT_SID.value then
    call_if_set cb.sid .sid
      { meta := meta
        process := { tid := read_pid data ed, pid := read_pid data (ed + 4) } }
  else if evt_what = what.PROC_EVENT_PTRACE.value then
    call_if_set cb.ptrace .ptrace
      { meta := meta
        process := { tid := read_pid data ed, pid := read_pid data (ed + 4) }
        tracer := { tid := read_pid data (ed + 8), pid := read_pid data (ed + 12) } }
  else if evt_what = what.PROC_EVENT_COMM.value then
    call_if_set cb.comm .comm
      { meta := meta
        process := { tid := read_pid data ed, pid := read_pid data (ed + 4) }
        comm := c_string data (ed + 8) }
  else if evt_what = what.PROC_EVENT_COREDUMP.value then
    let header_size := proconn_event_header_size
    let parent : task_ids :=
      if len ≥ header_size + sizeof_coredump_proc_event then
        { tid := read_pid data (ed + 8), pid := read_pid data (ed + 12) }
      else
        { tid := MISSING_PID, pid := MISSING_PID }
    call_if_set cb.coredump .coredump
      { meta := meta
        process := { tid := read_pid data ed, pid := read_pid data (ed + 4) }
        parent := parent }
  else if evt_what = what.PROC_EVENT_EXIT.value then
    let header_size := proconn_event_header_size
    let parent : task_ids :=
      if len ≥ header_size + sizeof_exit_proc_event then
        { tid := read_pid data (ed + 16), pid := read_pid data (ed + 20) }
      else
        { tid := MISSING_PID, pid := MISSING_PID }
    call_if_set cb.exit .exit
      { meta := meta
        process := { tid := read_pid data ed, pid := read_pid data (ed + 4) }
        exit_code := read_u32 data (ed + 8)
        exit_signal := read_u32 data (ed + 12)
        parent := parent }
  else
    Outcome.ret ()

/-! ## Netlink and connector framing

`struct nlmsghdr`, `struct cn_msg` and the `NLMSG_*` macros come from the kernel
headers `<linux/netlink.h>` and `<linux/connector.h>` that `proconn.hpp`
includes; they are transcribed here as the receiver uses them. -/

/-- Value of `sizeof(struct nlmsghdr)`: `__u32 nlmsg_len; __u16 nlmsg_type;
__u16 nlmsg_flags; __u32 nlmsg_seq; __u32 nlmsg_pid`. -/
def sizeof_nlmsghdr : Nat := 4 + 2 + 2 + 4 + 4

/-- Member `nl_hdr->nlmsg_len` of the header at offset `nl_hdr` of the buffer. -/
def nlmsg_len (buffer : List Nat) (nl_hdr : Nat) : Nat := read_u32 buffer nl_hdr

/-- Member `nl_hdr->nlmsg_type` of the header at offset `nl_hdr` of the buffer. -/
def nlmsg_type (buffer : List Nat) (nl_hdr : Nat) : Nat := read_u16 buffer (nl_hdr + 4)

/-- Message type `NLMSG_NOOP`. -/
def NLMSG_NOOP : Nat := 0x1
/-- Message type `NLMSG_ERROR`. -/
def NLMSG_ERROR : Nat := 0x2
/-- Message type `NLMSG_DONE`. -/
def NLMSG_DONE : Nat := 0x3
/-- Message type `NLMSG_OVERRUN`. -/
def NLMSG_OVERRUN : Nat := 0x4

/-- Macro `NLMSG_ALIGN(len)`: `((len) + NLMSG_ALIGNTO - 1) & ~(NLMSG_ALIGNTO - 1)`
with `NLMSG_ALIGNTO = 4U`, evaluated in 32-bit unsigned arithmetic. -/
def NLMSG_ALIGN (len : Nat) : Nat :=
  (len + 4 - 1) % 4294967296 / 4 * 4

/-- Macro `NLMSG_HDRLEN`: the aligned size of `struct nlmsghdr`. -/
def NLMSG_HDRLEN : Nat := NLMSG_ALIGN sizeof_nlmsghdr

/-- Macro `NLMSG_DATA(nlh)`: the offset of the bytes that follow the header. -/
def NLMSG_DATA (nl_hdr : Nat) : Nat := nl_hdr + NLMSG_HDRLEN

/-- Macro `NLMSG_OK(nlh, len)`: `len >= (int)sizeof(struct nlmsghdr) &&
nlh->nlmsg_len >= sizeof(struct nlmsghdr) && nlh->nlmsg_len <= len`, with `len`
the signed count of bytes that remain. -/
def NLMSG_OK (buffer : List Nat) (nl_hdr : Nat) (len : Int) : Bool :=
  decide (len ≥ (sizeof_nlmsghdr : Int)) && decide (nlmsg_len buffer nl_hdr ≥ sizeof_nlmsghdr)
    && decide ((nlmsg_len buffer nl_hdr : Int) ≤ len)

/-- Macro `NLMSG_NEXT(nlh, len)`: `len -= NLMSG_ALIGN(nlh->nlmsg_len)` and the
header `NLMSG_ALIGN(nlh->nlmsg_len)` bytes further on; the pair is the new header
offset and the new remaining count. -/
def NLMSG_NEXT (buffer : List Nat) (nl_hdr : Nat) (len : Int) : Nat × Int :=
  (nl_hdr + NLMSG_ALIGN (nlmsg_len buffer nl_hdr),
   len - (NLMSG_ALIGN (nlmsg_len buffer nl_hdr) : Int))

/-- Offset of `len` in `struct cn_msg`: after `struct cb_id id` (two `__u32`),
`__u32 seq` and `__u32 ack`. -/
def offsetof_cn_msg_len : Nat := 4 + 4 + 4 + 4

/-- Offset of `data` in `struct cn_msg`: after `__u16 len` and `__u16 flags`. -/
def offsetof_cn_msg_data : Nat := offsetof_cn_msg_len + 2 + 2

/-- Member `msg->len` of the `cn_msg` at offset `msg` of the buffer. -/
def cn_msg_len (buffer : List Nat) (msg : Nat) : Nat :=
  read_u16 buffer (msg + offsetof_cn_msg_len)

/-- Pointer `msg->data` of the `cn_msg` at offset `msg`: the buffer from the first
payload byte onwards. -/
def cn_msg_data (buffer : List Nat) (msg : Nat) : List Nat :=
  buffer.drop (msg + offsetof_cn_msg_data)

/-! ## The engine (proconn.cpp, lines 132-164 and 250-293) -/

/-- Address family `AF_NETLINK`. -/
def AF_NETLINK : Nat := 16
/-- Connector index `CN_IDX_PROC`. -/
def CN_IDX_PROC : Nat := 0x1

/-- Record `struct sockaddr_nl`, the members the engine sets. -/
structure sockaddr_nl where
  nl_family : Nat
  nl_groups : Nat
  nl_pid : Nat
  deriving DecidableEq, Repr

/-- Function `proconn::build_proconn_addr`. -/
def build_proconn_addr (tid : Nat) : sockaddr_nl :=
  { nl_family := AF_NETLINK, nl_groups := CN_IDX_PROC, nl_pid := tid }

/-- Function `proconn::build_kernel_addr`: kernel addresses use thread id 0. -/
def build_kernel_addr : sockaddr_nl :=
  build_proconn_addr 0

/-- The data members of `class proconn`. -/
structure proconn where
  _callbacks : event_callbacks
  _recv_buffer : Nat
  _bind_addr : sockaddr_nl
  _kernel_addr : sockaddr_nl
  _socket : Int

/-- What one `recvfrom` call hands back: its return value, the sender address it
stored in `addr`, and the content of the buffer afterwards. -/
structure recvfrom_result where
  bytes : Int
  addr : sockaddr_nl
  buffer : List Nat
  deriving DecidableEq, Repr

/-- The `while (NLMSG_OK(nl_hdr, bytes))` loop of `proconn::socket_recv` followed
by its `return 0`.  `nl_hdr` is the offset of the current header in the buffer,
`bytes` the remaining count; the first argument bounds the number of iterations
the model executes. -/
def socket_recv_loop (cb : event_callbacks) (buffer : List Nat) :
    Nat → Nat → Int → Outcome Int
  | 0, _, _ => { calls := [], status := .running }
  | fuel + 1, nl_hdr, bytes =>
    if NLMSG_OK buffer nl_hdr bytes then
      let msg_type := nlmsg_type buffer nl_hdr
      if msg_type = NLMSG_NOOP then
        -- `continue`: back to the loop condition, `nl_hdr` and `bytes` as they are
        socket_recv_loop cb buffer fuel nl_hdr bytes
      else if msg_type = NLMSG_ERROR ∨ msg_type = NLMSG_OVERRUN then
        Outcome.throw (.proconn_error "Received error" msg_type)
      else
        let msg := NLMSG_DATA nl_hdr
        (dispatch_event cb (cn_msg_data buffer msg) (cn_msg_len buffer msg)).and_then
          fun _ =>
            if msg_type = NLMSG_DONE then
              Outcome.ret 0
            else
              -- `nl_hdr = NLMSG_NEXT(nl_hdr, bytes)`
              socket_recv_loop cb buffer fuel
                (NLMSG_NEXT buffer nl_hdr bytes).1 (NLMSG_NEXT buffer nl_hdr bytes).2
    else
      Outcome.ret 0

/-- Function `proconn::socket_recv`, given what `recvfrom` returned. -/
def socket_recv (self : proconn) (fuel : Nat) (r : recvfrom_result) : Outcome Int :=
  if r.bytes ≤ 0 then
    Outcome.throw (.proconn_error "Receive message failed" r.bytes)
  else if r.addr.nl_pid ≠ self._kernel_addr.nl_pid then
    Outcome.throw (.proconn_error "Received message from unexpected source" r.addr.nl_pid)
  else
    socket_recv_loop self._callbacks r.buffer fuel 0 r.bytes

/-! ## Sample wire data

Little-endian encoders and concrete messages, used to evaluate the engine. -/

/-- The two bytes of a `__u16`. -/
def le16 (v : Nat) : List Nat := [v % 256, v / 256 % 256]

/-- The four bytes of a `__u32`. -/
def le32 (v : Nat) : List Nat :=
  [v % 256, v / 256 % 256, v / 65536 % 256, v / 16777216 % 256]

/-- The eight bytes of a `__u64`. -/
def le64 (v : Nat) : List Nat := le32 (v % 4294967296) ++ le32 (v / 4294967296)

/-- A 40-byte `proconn_event`: tag, cpu, timestamp and six 32-bit words of
`event_data`. -/
def sample_event (tag cpu ts w0 w1 w2 w3 w4 w5 : Nat) : List Nat :=
  le32 tag ++ le32 cpu ++ le64 ts ++ le32 w0 ++ le32 w1 ++ le32 w2 ++ le32 w3 ++ le32 w4
    ++ le32 w5

/-- One netlink message: `nlmsghdr` with the given type, then a `cn_msg` for the
process connector stating `len` payload bytes, then the payload. -/
def sample_envelope (type len : Nat) (payload : List Nat) : List Nat :=
  le32 (16 + 20 + payload.length) ++ le16 type ++ le16 0 ++ le32 0 ++ le32 0
    ++ le32 1 ++ le32 1 ++ le32 0 ++ le32 0 ++ le16 len ++ le16 0 ++ payload

/-- A handler that returns normally. -/
def quiet {ε : Type} : Handler ε := fun _ => .ok ()

/-- Handlers registered for all nine kinds. -/
def all_callbacks : event_callbacks :=
  { fork := some quiet, exec := some quiet, uid := some quiet, gid := some quiet
    sid := some quiet, ptrace := some quiet, comm := some quiet
    coredump := some quiet, exit := some quiet }

/-- No handler registered at all. -/
def no_callbacks : event_callbacks :=
  { fork := none, exec := none, uid := none, gid := none, sid := none, ptrace := none
    comm := none, coredump := none, exit := none }

/-- An engine after construction with the given handlers (thread id 4242, socket
descriptor 3, default buffer size). -/
def sample_engine (cb : event_callbacks) : proconn :=
  { _callbacks := cb, _recv_buffer := 2048, _bind_addr := build_proconn_addr 4242
    _kernel_addr := build_kernel_addr, _socket := 3 }

/-- An Exit event of process 700 (exit status 7, signal 17) with parent 650/600. -/
def sample_exit : List Nat :=
  sample_event 0x80000000 2 123456789012 700 700 0x700 17 650 600

/-- A Coredump event of thread 701 of process 700 with parent 650/600. -/
def sample_coredump : List Nat :=
  sample_event 0x40000000 1 99 701 700 650 600 0 0

/-- A Fork event: thread 651 of process 650 creates process 700. -/
def sample_fork : List Nat :=
  sample_event 0x1 3 5000000000 651 650 700 700 0 0

/-- An Exec event of process 700. -/
def sample_exec : List Nat :=
  sample_event 0x2 3 5000000100 700 700 0 0 0 0

/-- A Comm event of process 700 whose 16-byte name field holds sixteen letters and
no zero byte. -/
def sample_comm_unterminated : List Nat :=
  le32 0x200 ++ le32 0 ++ le64 77 ++ le32 700 ++ le32 700 ++ List.replicate 16 0x41

/-- A Comm event of process 700 named `sh`. -/
def sample_comm : List Nat :=
  le32 0x200 ++ le32 0 ++ le64 77 ++ le32 700 ++ le32 700 ++ [0x73, 0x68]
    ++ List.replicate 14 0

/-- A bare 16-byte netlink header of type `NLMSG_NOOP`. -/
def sample_noop : List Nat :=
  le32 16 ++ le16 0x1 ++ le16 0 ++ le32 0 ++ le32 0

/-- What `recvfrom` returns for a datagram from the kernel with these bytes, in a
buffer of the default size. -/
def sample_datagram (bytes : List Nat) : recvfrom_result :=
  { bytes := bytes.length, addr := build_kernel_addr
    buffer := bytes ++ List.replicate (2048 - bytes.length) 0 }

/-! ## Chains of envelopes

Descriptions of what a datagram holds, built from the macros the receiver uses. -/

/-- The two statements `auto* msg = ...NLMSG_DATA(nl_hdr); dispatch_event(msg->data,
msg->len);` for the header at offset `nl_hdr`: the payload of that envelope is
forwarded to the decoder. -/
def forward_payload (cb : event_callbacks) (buffer : List Nat) (nl_hdr : Nat) : Outcome Unit :=
  dispatch_event cb (cn_msg_data buffer (NLMSG_DATA nl_hdr)) (cn_msg_len buffer (NLMSG_DATA nl_hdr))

/-- Header offset and remaining count after `k` applications of `NLMSG_NEXT`,
starting from the pair `p`. -/
def nth_header (buffer : List Nat) : Nat → Nat × Int → Nat × Int
  | 0, p => p
  | k + 1, p => nth_header buffer k (NLMSG_NEXT buffer p.1 p.2)

/-- The envelope at `nl_hdr` passes `NLMSG_OK` and is an event message that is not
final: its type is none of no-op, error, overrun, done. -/
def plain_envelope (buffer : List Nat) (nl_hdr : Nat) (bytes : Int) : Bool :=
  NLMSG_OK buffer nl_hdr bytes
    && decide (nlmsg_type buffer nl_hdr ∉ [NLMSG_NOOP, NLMSG_ERROR, NLMSG_OVERRUN, NLMSG_DONE])

/-- The first `k` envelopes of the chain that starts at `nl_hdr` are plain. -/
def plain_chain (buffer : List Nat) : Nat → Nat → Int → Bool
  | 0, _, _ => true
  | k + 1, nl_hdr, bytes =>
    plain_envelope buffer nl_hdr bytes
      && plain_chain buffer k (NLMSG_NEXT buffer nl_hdr bytes).1 (NLMSG_NEXT buffer nl_hdr bytes).2

/-- The payloads of the first `k` envelopes of the chain forwarded to the decoder
one after the other, in wire order. -/
def forward_chain (cb : event_callbacks) (buffer : List Nat) : Nat → Nat → Int → Outcome Unit
  | 0, _, _ => Outcome.ret ()
  | k + 1, nl_hdr, bytes =>
    (forward_payload cb buffer nl_hdr).and_then fun _ =>
      forward_chain cb buffer k (NLMSG_NEXT buffer nl_hdr bytes).1
        (NLMSG_NEXT buffer nl_hdr bytes).2

/-- An invocation with the parent pair of a coredump or exit event blanked; every
other field, and every other kind of event, is kept. -/
def Invocation.without_parent : Invocation → Invocation
  | .coredump e => .coredump { e with parent := { tid := MISSING_PID, pid := MISSING_PID } }
  | .exit e => .exit { e with parent := { tid := MISSING_PID, pid := MISSING_PID } }
  | i => i

/-! ## The control path (proconn.cpp, lines 186-248 and 295-316) -/

/-- Operation code `PROC_CN_MCAST_LISTEN` of `<linux/cn_proc.h>`. -/
def PROC_CN_MCAST_LISTEN : Nat := 1
/-- Operation code `PROC_CN_MCAST_IGNORE` of `<linux/cn_proc.h>`. -/
def PROC_CN_MCAST_IGNORE : Nat := 2
/-- Connector value `CN_VAL_PROC`. -/
def CN_VAL_PROC : Nat := 0x1

/-- Value of `sizeof(struct cn_msg)`: `struct cb_id id` (two `__u32`), `__u32 seq`,
`__u32 ack`, `__u16 len`, `__u16 flags`; the flexible `data` adds nothing. -/
def sizeof_cn_msg : Nat := 4 + 4 + 4 + 4 + 2 + 2

/-- Macro `NLMSG_LENGTH(len)`: `(len) + NLMSG_HDRLEN`. -/
def NLMSG_LENGTH (len : Nat) : Nat := len + NLMSG_HDRLEN

/-- Macro `NLMSG_SPACE(len)`: `NLMSG_ALIGN(NLMSG_LENGTH(len))`. -/
def NLMSG_SPACE (len : Nat) : Nat := NLMSG_ALIGN (NLMSG_LENGTH len)

/-- A store of the given bytes at offset `off` of a buffer. -/
def store (buffer : List Nat) (off : Nat) (bytes : List Nat) : List Nat :=
  buffer.take off ++ bytes ++ buffer.drop (off + bytes.length)

/-- The buffer of `proconn::socket_send_op` when `sendmsg` is called (lines
215-229): 1024 zero bytes, then the stores to `nlmsg_len`, `nlmsg_type`,
`nlmsg_pid`, `id.idx`, `id.val`, `len` and the `memcpy` of the four bytes of `op`
to `data`.  `tid` is what `utils::gettid()` returns. -/
def send_op_buffer (tid op : Nat) : List Nat :=
  let size := 4
  let nl_hdr := 0
  let nl_msg := NLMSG_DATA nl_hdr
  let b0 := List.replicate 1024 0
  let b1 := store b0 nl_hdr (le32 (NLMSG_SPACE (NLMSG_LENGTH (sizeof_cn_msg + size))))
  let b2 := store b1 (nl_hdr + 4) (le16 NLMSG_DONE)
  let b3 := store b2 (nl_hdr + 12) (le32 tid)
  let b4 := store b3 nl_msg (le32 CN_IDX_PROC)
  let b5 := store b4 (nl_msg + 4) (le32 CN_VAL_PROC)
  let b6 := store b5 (nl_msg + offsetof_cn_msg_len) (le16 size)
  store b6 (nl_msg + offsetof_cn_msg_data) (le32 op)

/-- The bytes `iov` describes: `iov_len = nl_hdr->nlmsg_len` bytes from the start
of the buffer. -/
def send_op_iov (tid op : Nat) : List Nat :=
  (send_op_buffer tid op).take (nlmsg_len (send_op_buffer tid op) 0)

/-- What one `sendmsg` call hands back: its return value and the value `errno`
has afterwards. -/
structure sendmsg_result where
  bytes : Int
  errno : Int
  deriving DecidableEq, Repr

/-- A system call the control path makes: `sendmsg(fd, &msg, 0)` with the
destination `msg_name` and the bytes of the single `iov`, or `close(fd)`. -/
inductive Syscall
  | sendmsg (fd : Int) (msg_name : sockaddr_nl) (iov : List Nat)
  | close (fd : Int)
  deriving DecidableEq, Repr

/-- The result of a member function of the control path: the engine afterwards,
the system calls made, and how the call ended. -/
structure Effect (α : Type) where
  state : proconn
  syscalls : List Syscall
  status : Completion α

/-- Function `proconn::socket_send_op`: the `sendmsg` call it makes and the `int`
it returns, `-errno` when the send failed or was short, else 0. -/
def socket_send_op (self : proconn) (tid op : Nat) (res : sendmsg_result) : Syscall × Int :=
  (Syscall.sendmsg self._socket self._kernel_addr (send_op_iov tid op),
   if res.bytes < 0 ∨ res.bytes ≠ (nlmsg_len (send_op_buffer tid op) 0 : Int) then
     -res.errno
   else
     0)

/-- Function `proconn::socket_register`. -/
def socket_register (self : proconn) (tid : Nat) (res : sendmsg_result) : Effect Unit :=
  let REGISTER_OP := PROC_CN_MCAST_LISTEN
  let sent := socket_send_op self tid REGISTER_OP res
  let err := sent.2
  if err ≠ 0 then
    { state := self, syscalls := [sent.1]
      status := .raised (.system_error (-err) "Couldn't register socket") }
  else
    { state := self, syscalls := [sent.1], status := .returned () }

/-- Function `proconn::socket_unregister`. -/
def socket_unregister (self : proconn) (tid : Nat) (res : sendmsg_result) : Effect Unit :=
  let UNREGISTER_OP := PROC_CN_MCAST_IGNORE
  let sent := socket_send_op self tid UNREGISTER_OP res
  let err := sent.2
  if err ≠ 0 then
    { state := self, syscalls := [sent.1]
      status := .raised (.system_error (-err) "Couldn't unregister socket") }
  else
    { state := self, syscalls := [sent.1], status := .returned () }

/-- Function `proconn::stop`. -/
def stop (self : proconn) (tid : Nat) (res : sendmsg_result) : Effect Unit :=
  if self._socket < 0 then
    { state := self, syscalls := [], status := .returned () }
  else
    let u := socket_unregister self tid res
    match u.status with
    | .returned _ =>
      { state := { u.state with _socket := -1 }
        syscalls := u.syscalls ++ [Syscall.close u.state._socket]
        status := .returned () }
    | .raised e => { state := u.state, syscalls := u.syscalls, status := .raised e }
    | .running => { state := u.state, syscalls := u.syscalls, status := .running }

/-- Calls of `stop()` one after the other, each with its thread id and `sendmsg`
result; a call that throws ends the sequence. -/
def stop_all (self : proconn) : List (Nat × sendmsg_result) → Effect Unit
  | [] => { state := self, syscalls := [], status := .returned () }
  | env :: rest =>
    let s := stop self env.1 env.2
    match s.status with
    | .returned _ =>
      let t := stop_all s.state rest
      { state := t.state, syscalls := s.syscalls ++ t.syscalls, status := t.status }
    | .raised e => { state := s.state, syscalls := s.syscalls, status := .raised e }
    | .running => { state := s.state, syscalls := s.syscalls, status := .running }

/-- The loop `while (!socket_recv(addr, buffer)) ;` of `proconn::run`.  `recvs i`
is what the `i`-th `recvfrom` hands back, `recv_fuel` the budget of each
`socket_recv`, the first `Nat` the budget of calls of `socket_recv`. -/
def run_loop (self : proconn) (recv_fuel : Nat) (recvs : Nat → recvfrom_result) :
    Nat → Nat → Outcome Unit
  | 0, _ => { calls := [], status := .running }
  | fuel + 1, i =>
    (socket_recv self recv_fuel (recvs i)).and_then fun rc =>
      if rc = 0 then run_loop self recv_fuel recvs fuel (i + 1) else Outcome.ret ()

/-- Function `proconn::run`: `socket_register()`, then the receive loop; the
result records the handler calls. -/
def run (self : proconn) (tid : Nat) (reg : sendmsg_result) (recv_fuel : Nat)
    (recvs : Nat → recvfrom_result) (fuel : Nat) : Outcome Unit :=
  match (socket_register self tid reg).status with
  | .returned _ => run_loop self recv_fuel recvs fuel 0
  | .raised e => Outcome.throw e
  | .running => { calls := [], status := .running }

/-- A datagram of four messages: Fork and Exec of type 0x10, then an Exit message
whose envelope is marked `NLMSG_ERROR`, then a Coredump message. -/
def sample_with_error : recvfrom_result :=
  sample_datagram (sample_envelope 0x10 40 sample_fork ++ sample_envelope 0x10 40 sample_exec
    ++ sample_envelope 0x2 40 sample_exit ++ sample_envelope 0x10 40 sample_coredump)

/-- A datagram of three messages: Fork of type 0x10, Exec marked `NLMSG_DONE`, then
an Exit message of type 0x10. -/
def sample_with_final : recvfrom_result :=
  sample_datagram (sample_envelope 0x10 40 sample_fork ++ sample_envelope 0x3 40 sample_exec
    ++ sample_envelope 0x10 40 sample_exit)

/-- The largest count one read or receive call of Linux transfers: `MAX_RW_COUNT`,
that is `INT_MAX & PAGE_MASK`. -/
def MAX_RW_COUNT : Nat := 0x7ffff000

/-- What the call `recvfrom(_socket, buffer.data(), buffer.size(), ...)` of
`proconn::socket_recv` can hand back to this engine: a count that exceeds neither
the size of the buffer, `_recv_buffer`, nor `MAX_RW_COUNT`. -/
def recvfrom_result.receivable (r : recvfrom_result) (self : proconn) : Bool :=
  decide (r.bytes ≤ (self._recv_buffer : Int)) && decide (r.bytes ≤ (MAX_RW_COUNT : Int))

/-- A datagram of two messages, Fork then Exec, both of type 0x10. -/
def sample_two_messages : recvfrom_result :=
  sample_datagram (sample_envelope 0x10 40 sample_fork ++ sample_envelope 0x10 40 sample_exec)

set_option maxRecDepth 20000

/-! ## Lemmas on outcomes -/

theorem Outcome.ret_and_then {α β : Type} (v : α) (k : α → Outcome β) :
    (Outcome.ret v).and_then k = k v := by
  simp [Outcome.ret, Outcome.and_then]

/-! ## The decoder -/

/-- C1: an Exit message (tag 0x80000000) with an exit handler registered delivers
exactly one exit event; its parent is MISSING/MISSING when the stated length is
below 40 and is the pair of values at offsets 32 and 36 when the stated length
is at least 40, so the pair is never mixed. -/
theorem exit_parent_follows_stated_length (cb : event_callbacks) (h : Handler exit_event)
    (data : List Nat) (len : Nat)
    (htag : read_u32 data 0 = 0x80000000) (hcb : cb.exit = some h) :
    ∃ e : exit_event, (dispatch_event cb data len).calls = [Invocation.exit e]
      ∧ (len < 40 → e.parent = { tid := MISSING_PID, pid := MISSING_PID })
      ∧ (40 ≤ len → e.parent.tid = read_pid data 32 ∧ e.parent.pid = read_pid data 36)
      ∧ (e.parent = { tid := MISSING_PID, pid := MISSING_PID }
          ∨ e.parent = { tid := read_pid data 32, pid := read_pid data 36 }) := by
  simp only [dispatch_event, offsetof_what, htag, what.value, call_if_set, hcb]
  simp only [proconn_event_header_size, sizeof_exit_proc_event, offsetof_event_data]
  by_cases hl : 40 ≤ len
  · simp [hl]
  · have hlt : len < 40 := by omega
    simp [hl, hlt]

/-- Witness of C1: the sample Exit message decoded with stated length 40 (parent
read from the wire) and with stated length 39 (parent MISSING). -/
theorem exit_parent_follows_stated_length_witness :
    (read_u32 sample_exit 0 = 0x80000000 ∧ all_callbacks.exit = some quiet)
      ∧ (∃ e : exit_event, (dispatch_event all_callbacks sample_exit 40).calls
            = [Invocation.exit e]
          ∧ (40 < 40 → e.parent = { tid := MISSING_PID, pid := MISSING_PID })
          ∧ (40 ≤ 40 → e.parent.tid = read_pid sample_exit 32
              ∧ e.parent.pid = read_pid sample_exit 36)
          ∧ (e.parent = { tid := MISSING_PID, pid := MISSING_PID }
              ∨ e.parent = { tid := read_pid sample_exit 32, pid := read_pid sample_exit 36 }))
      ∧ (∃ e : exit_event, (dispatch_event all_callbacks sample_exit 39).calls
            = [Invocation.exit e]
          ∧ (39 < 40 → e.parent = { tid := MISSING_PID, pid := MISSING_PID })
          ∧ (40 ≤ 39 → e.parent.tid = read_pid sample_exit 32
              ∧ e.parent.pid = read_pid sample_exit 36)
          ∧ (e.parent = { tid := MISSING_PID, pid := MISSING_PID }
              ∨ e.parent = { tid := read_pid sample_exit 32, pid := read_pid sample_exit 36 })) :=
  ⟨⟨by decide, rfl⟩,
    exit_parent_follows_stated_length all_callbacks quiet sample_exit 40 (by decide) rfl,
    exit_parent_follows_stated_length all_callbacks quiet sample_exit 39 (by decide) rfl⟩

/-- C2: a Coredump message (tag 0x40000000) with a coredump handler registered
delivers exactly one coredump event whose process pair is the values at offsets
16 and 20; its parent is MISSING/MISSING when the stated length is below 32 and
the values at offsets 24 and 28 when the stated length is at least 32. -/
theorem coredump_parent_follows_stated_length (cb : event_callbacks)
    (h : Handler coredump_event) (data : List Nat) (len : Nat)
    (htag : read_u32 data 0 = 0x40000000) (hcb : cb.coredump = some h) :
    ∃ e : coredump_event, (dispatch_event cb data len).calls = [Invocation.coredump e]
      ∧ (len < 32 → e.parent = { tid := MISSING_PID, pid := MISSING_PID })
      ∧ (32 ≤ len → e.parent.tid = read_pid data 24 ∧ e.parent.pid = read_pid data 28)
      ∧ e.process.tid = read_pid data 16 ∧ e.process.pid = read_pid data 20 := by
  simp only [dispatch_event, offsetof_what, htag, what.value, call_if_set, hcb]
  simp only [proconn_event_header_size, sizeof_coredump_proc_event, offsetof_event_data]
  by_cases hl : 32 ≤ len
  · simp [hl]
  · have hlt : len < 32 := by omega
    simp [hl, hlt]

/-- Witness of C2: the sample Coredump message with stated length 31. -/
theorem coredump_parent_follows_stated_length_witness :
    (read_u32 sample_coredump 0 = 0x40000000 ∧ all_callbacks.coredump = some quiet)
      ∧ (∃ e : coredump_event, (dispatch_event all_callbacks sample_coredump 31).calls
            = [Invocation.coredump e]
          ∧ (31 < 32 → e.parent = { tid := MISSING_PID, pid := MISSING_PID })
          ∧ (32 ≤ 31 → e.parent.tid = read_pid sample_coredump 24
              ∧ e.parent.pid = read_pid sample_coredump 28)
          ∧ e.process.tid = read_pid sample_coredump 16
          ∧ e.process.pid = read_pid sample_coredump 20) :=
  ⟨⟨by decide, rfl⟩,
    coredump_parent_follows_stated_length all_callbacks quiet sample_coredump 31
      (by decide) rfl⟩

/-- C3: a payload whose tag is none of the nine known values makes the decoder call
no handler and return normally, for every stated length and every set of
handlers. -/
theorem unknown_tag_is_ignored (cb : event_callbacks) (data : List Nat) (len : Nat)
    (htag : read_u32 data 0 ∉
      [0x1, 0x2, 0x4, 0x40, 0x80, 0x100, 0x200, 0x40000000, 0x80000000]) :
    (dispatch_event cb data len).calls = []
      ∧ (dispatch_event cb data len).status = Completion.returned () := by
  simp only [List.mem_cons, List.mem_singleton, List.not_mem_nil, not_or, or_false] at htag
  obtain ⟨h1, h2, h3, h4, h5, h6, h7, h8, h9⟩ := htag
  simp [dispatch_event, offsetof_what, what.value, h1, h2, h3, h4, h5, h6, h7, h8, h9,
    Outcome.ret]

/-- Witness of C3: tag 0x400 with every handler registered. -/
theorem unknown_tag_is_ignored_witness :
    read_u32 (sample_event 0x400 0 1 700 700 0 0 0 0) 0 ∉
        [0x1, 0x2, 0x4, 0x40, 0x80, 0x100, 0x200, 0x40000000, 0x80000000]
      ∧ (dispatch_event all_callbacks (sample_event 0x400 0 1 700 700 0 0 0 0) 40).calls = []
      ∧ (dispatch_event all_callbacks (sample_event 0x400 0 1 700 700 0 0 0 0) 40).status
          = Completion.returned () :=
  ⟨by decide, unknown_tag_is_ignored all_callbacks _ 40 (by decide)⟩
/-- C4: for the tags Fork, Exec, Uid, Gid, Sid and Ptrace with the handler of the
kind registered, the one delivered event carries cpu from offset 4, timestamp_ns
from offset 8, the first id pair (tid, pid) from offsets 16 and 20, and the
second group (child, tracer, ruid/euid, rgid/egid) from offsets 24 and 28. -/
theorem fixed_layout_events_match_wire (cb : event_callbacks) (data : List Nat) (len : Nat) :
    (∀ h, read_u32 data 0 = 0x1 → cb.fork = some h →
        (dispatch_event cb data len).calls = [Invocation.fork
          { meta := { cpu := read_u32 data 4, timestamp_ns := read_u64 data 8 }
            parent := { tid := read_pid data 16, pid := read_pid data 20 }
            child := { tid := read_pid data 24, pid := read_pid data 28 } }])
    ∧ (∀ h, read_u32 data 0 = 0x2 → cb.exec = some h →
        (dispatch_event cb data len).calls = [Invocation.exec
          { meta := { cpu := read_u32 data 4, timestamp_ns := read_u64 data 8 }
            process := { tid := read_pid data 16, pid := read_pid data 20 } }])
    ∧ (∀ h, read_u32 data 0 = 0x4 → cb.uid = some h →
        (dispatch_event cb data len).calls = [Invocation.uid
          { meta := { cpu := read_u32 data 4, timestamp_ns := read_u64 data 8 }
            process := { tid := read_pid data 16, pid := read_pid data 20 }
            ruid := read_u32 data 24
            euid := read_u32 data 28 }])
    ∧ (∀ h, read_u32 data 0 = 0x40 → cb.gid = some h →
        (dispatch_event cb data len).calls = [Invocation.gid
          { meta := { cpu := read_u32 data 4, timestamp_ns := read_u64 data 8 }
            process := { tid := read_pid data 16, pid := read_pid data 20 }
            rgid := read_u32 data 24
            egid := read_u32 data 28 }])
    ∧ (∀ h, read_u32 data 0 = 0x80 → cb.sid = some h →
        (dispatch_event cb data len).calls = [Invocation.sid
          { meta := { cpu := read_u32 data 4, timestamp_ns := read_u64 data 8 }
            process := { tid := read_pid data 16, pid := read_pid data 20 } }])
    ∧ (∀ h, read_u32 data 0 = 0x100 → cb.ptrace = some h →
        (dispatch_event cb data len).calls = [Invocation.ptrace
          { meta := { cpu := read_u32 data 4, timestamp_ns := read_u64 data 8 }
            process := { tid := read_pid data 16, pid := read_pid data 20 }
            tracer := { tid := read_pid data 24, pid := read_pid data 28 } }]) := by
  refine ⟨?_, ?_, ?_, ?_, ?_, ?_⟩ <;> intro h htag hcb <;>
    simp [dispatch_event, offsetof_what, offsetof_cpu, offsetof_timestamp_ns,
      offsetof_event_data, htag, what.value, call_if_set, hcb]

/-- Witness of C4: the sample Fork message (40 bytes) decodes to parent 651/650 and
child 700/700 on cpu 3. -/
theorem fixed_layout_events_match_wire_witness :
    sample_fork.length = 40 ∧ read_u32 sample_fork 0 = 0x1
      ∧ (dispatch_event all_callbacks sample_fork 40).calls = [Invocation.fork
          { meta := { cpu := 3, timestamp_ns := 5000000000 }
            parent := { tid := 651, pid := 650 }
            child := { tid := 700, pid := 700 } }] :=
  ⟨by decide, by decide,
    ((fixed_layout_events_match_wire all_callbacks sample_fork 40).1 quiet
      (by decide) rfl).trans (by decide)⟩

/-- C5: an Exit message with an exit handler registered delivers one exit event
with process.tid, process.pid, exit_code and exit_signal equal to the values at
offsets 16, 20, 24 and 28, unchanged, and meta.cpu / meta.timestamp_ns equal to
the values at offsets 4 and 8. -/
theorem exit_fields_match_wire (cb : event_callbacks) (h : Handler exit_event)
    (data : List Nat) (len : Nat)
    (htag : read_u32 data 0 = 0x80000000) (hcb : cb.exit = some h) :
    ∃ e : exit_event, (dispatch_event cb data len).calls = [Invocation.exit e]
      ∧ e.process.tid = read_pid data 16 ∧ e.process.pid = read_pid data 20
      ∧ e.exit_code = read_u32 data 24 ∧ e.exit_signal = read_u32 data 28
      ∧ e.meta.cpu = read_u32 data 4 ∧ e.meta.timestamp_ns = read_u64 data 8 := by
  simp [dispatch_event, offsetof_what, offsetof_cpu, offsetof_timestamp_ns,
    offsetof_event_data, htag, what.value, call_if_set, hcb]

/-- Witness of C5: the sample Exit message, whose exit_code word 0x700 is the wait
status of exit status 7. -/
theorem exit_fields_match_wire_witness :
    (read_u32 sample_exit 0 = 0x80000000 ∧ all_callbacks.exit = some quiet
        ∧ read_u32 sample_exit 24 = 0x700)
      ∧ (∃ e : exit_event, (dispatch_event all_callbacks sample_exit 40).calls
            = [Invocation.exit e]
          ∧ e.process.tid = read_pid sample_exit 16 ∧ e.process.pid = read_pid sample_exit 20
          ∧ e.exit_code = read_u32 sample_exit 24 ∧ e.exit_signal = read_u32 sample_exit 28
          ∧ e.meta.cpu = read_u32 sample_exit 4
          ∧ e.meta.timestamp_ns = read_u64 sample_exit 8) :=
  ⟨⟨by decide, rfl, by decide⟩,
    exit_fields_match_wire all_callbacks quiet sample_exit 40 (by decide) rfl⟩

/-! ## The name of a Comm event -/

theorem takeWhile_within_prefix (l : List Nat) (n : Nat)
    (hz : ∃ i, i < n ∧ l.getD i 0 = 0) :
    l.takeWhile (fun b => b != 0) = (l.take n).takeWhile (fun b => b != 0)
      ∧ (l.takeWhile (fun b => b != 0)).length < n := by
  induction l generalizing n with
  | nil =>
    obtain ⟨i, hi, _⟩ := hz
    simp
    omega
  | cons a l ih =>
    obtain ⟨i, hi, h0⟩ := hz
    cases n with
    | zero => omega
    | succ m =>
      by_cases ha : a = 0
      · simp [ha]
      · cases i with
        | zero => simp at h0; exact absurd h0 ha
        | succ j =>
          have hj : ∃ i, i < m ∧ l.getD i 0 = 0 := ⟨j, by omega, by simpa using h0⟩
          obtain ⟨h1, h2⟩ := ih m hj
          simp [List.takeWhile_cons, ha, List.take_succ_cons]
          exact ⟨h1, h2⟩

theorem getD_map_drop (data : List Nat) (off i : Nat) :
    ((data.drop off).map (fun b => b % 256)).getD i 0 = byte_at data (off + i) := by
  simp [byte_at, List.getD_eq_getElem?_getD, List.getElem?_map, List.getElem?_drop]
  cases data[off + i]? <;> simp

/-- The name of a Comm event stays inside a field of `n` bytes that holds a zero
byte: it is the bytes of the field before the first zero, fewer than `n`. -/
theorem c_string_within_terminated_field (data : List Nat) (off n : Nat)
    (hz : ∃ i, i < n ∧ byte_at data (off + i) = 0) :
    c_string data off
        = (((data.drop off).take n).map (fun b => b % 256)).takeWhile (fun b => b != 0)
      ∧ (c_string data off).length < n := by
  obtain ⟨i, hi, h0⟩ := hz
  have h := takeWhile_within_prefix ((data.drop off).map (fun b => b % 256)) n
    ⟨i, hi, by rw [getD_map_drop]; exact h0⟩
  simpa [c_string, List.map_take] using h

/-- C6 (evaluation at the failing input): a Comm message whose 16-byte name field
holds no zero byte and is followed in the buffer by the next packed message; the
delivered name has 17 bytes, the last one being byte 40, the first byte of the
next netlink header. -/
theorem comm_name_runs_past_field :
    (dispatch_event all_callbacks
        (sample_comm_unterminated ++ sample_envelope 0x3 40 sample_exec) 40).calls
      = [Invocation.comm
          { meta := { cpu := 0, timestamp_ns := 77 }
            process := { tid := 700, pid := 700 }
            comm := List.replicate 16 0x41 ++ [76] }]
    ∧ sample_comm_unterminated.length = 40
    ∧ byte_at (sample_comm_unterminated ++ sample_envelope 0x3 40 sample_exec) 40 = 76 := by
  decide

/-- C7: with all nine handlers registered, a payload whose tag is the value of one
of the nine kinds (Fork=0x1, Exec=0x2, Uid=0x4, Gid=0x40, Sid=0x80, Ptrace=0x100,
Comm=0x200, Coredump=0x40000000, Exit=0x80000000) causes exactly one handler
call, to the handler of that kind. -/
theorem known_tag_calls_its_handler_once (cb : event_callbacks) (data : List Nat) (len : Nat)
    (hall : ∀ k : what, cb.registered k = true) (k : what)
    (htag : read_u32 data 0 = k.value) :
    (∃ i : Invocation, (dispatch_event cb data len).calls = [i] ∧ i.kind = k)
      ∧ List.map what.value
          [.PROC_EVENT_FORK, .PROC_EVENT_EXEC, .PROC_EVENT_UID, .PROC_EVENT_GID,
            .PROC_EVENT_SID, .PROC_EVENT_PTRACE, .PROC_EVENT_COMM, .PROC_EVENT_COREDUMP,
            .PROC_EVENT_EXIT]
          = [0x1, 0x2, 0x4, 0x40, 0x80, 0x100, 0x200, 0x40000000, 0x80000000] := by
  refine ⟨?_, by decide⟩
  have h1 := hall .PROC_EVENT_FORK
  have h2 := hall .PROC_EVENT_EXEC
  have h3 := hall .PROC_EVENT_UID
  have h4 := hall .PROC_EVENT_GID
  have h5 := hall .PROC_EVENT_SID
  have h6 := hall .PROC_EVENT_PTRACE
  have h7 := hall .PROC_EVENT_COMM
  have h8 := hall .PROC_EVENT_COREDUMP
  have h9 := hall .PROC_EVENT_EXIT
  simp only [event_callbacks.registered, Option.isSome_iff_exists] at h1 h2 h3 h4 h5 h6 h7 h8 h9
  obtain ⟨f1, e1⟩ := h1
  obtain ⟨f2, e2⟩ := h2
  obtain ⟨f3, e3⟩ := h3
  obtain ⟨f4, e4⟩ := h4
  obtain ⟨f5, e5⟩ := h5
  obtain ⟨f6, e6⟩ := h6
  obtain ⟨f7, e7⟩ := h7
  obtain ⟨f8, e8⟩ := h8
  obtain ⟨f9, e9⟩ := h9
  cases k <;> simp only [what.value] at htag <;>
    simp [dispatch_event, offsetof_what, htag, what.value, call_if_set, e1, e2, e3, e4, e5,
      e6, e7, e8, e9, Invocation.kind]

/-- Witness of C7: the sample Exec message with every handler registered. -/
theorem known_tag_calls_its_handler_once_witness :
    ((∀ k : what, all_callbacks.registered k = true)
        ∧ read_u32 sample_exec 0 = what.PROC_EVENT_EXEC.value)
      ∧ ((∃ i : Invocation, (dispatch_event all_callbacks sample_exec 40).calls = [i]
            ∧ i.kind = what.PROC_EVENT_EXEC)
        ∧ List.map what.value
            [.PROC_EVENT_FORK, .PROC_EVENT_EXEC, .PROC_EVENT_UID, .PROC_EVENT_GID,
              .PROC_EVENT_SID, .PROC_EVENT_PTRACE, .PROC_EVENT_COMM, .PROC_EVENT_COREDUMP,
              .PROC_EVENT_EXIT]
            = [0x1, 0x2, 0x4, 0x40, 0x80, 0x100, 0x200, 0x40000000, 0x80000000]) :=
  ⟨⟨fun k => by cases k <;> rfl, by decide⟩,
    known_tag_calls_its_handler_once all_callbacks sample_exec 40
      (fun k => by cases k <;> rfl) what.PROC_EVENT_EXEC (by decide)⟩
/-! ## Unregistered kinds -/

theorem dispatch_event_unregistered (cb : event_callbacks) (data : List Nat) (len : Nat)
    (hnone : ∀ k : what, read_u32 data 0 = k.value → cb.registered k = false) :
    dispatch_event cb data len = Outcome.ret () := by
  have key : ∀ {ε : Type} (o : Option (Handler ε)), o.isSome = false → o = none := by
    intro ε o ho
    cases o with
    | none => rfl
    | some f => simp at ho
  have h1 := fun c => key _ (hnone .PROC_EVENT_FORK c)
  have h2 := fun c => key _ (hnone .PROC_EVENT_EXEC c)
  have h3 := fun c => key _ (hnone .PROC_EVENT_UID c)
  have h4 := fun c => key _ (hnone .PROC_EVENT_GID c)
  have h5 := fun c => key _ (hnone .PROC_EVENT_SID c)
  have h6 := fun c => key _ (hnone .PROC_EVENT_PTRACE c)
  have h7 := fun c => key _ (hnone .PROC_EVENT_COMM c)
  have h8 := fun c => key _ (hnone .PROC_EVENT_COREDUMP c)
  have h9 := fun c => key _ (hnone .PROC_EVENT_EXIT c)
  simp only [what.value] at h1 h2 h3 h4 h5 h6 h7 h8 h9
  simp only [dispatch_event, offsetof_what, what.value]
  by_cases c1 : read_u32 data 0 = 1
  · simp [c1, h1 c1, call_if_set]
  by_cases c2 : read_u32 data 0 = 2
  · simp [c2, h2 c2, call_if_set]
  by_cases c3 : read_u32 data 0 = 4
  · simp [c3, h3 c3, call_if_set]
  by_cases c4 : read_u32 data 0 = 64
  · simp [c4, h4 c4, call_if_set]
  by_cases c5 : read_u32 data 0 = 128
  · simp [c5, h5 c5, call_if_set]
  by_cases c6 : read_u32 data 0 = 256
  · simp [c6, h6 c6, call_if_set]
  by_cases c7 : read_u32 data 0 = 512
  · simp [c7, h7 c7, call_if_set]
  by_cases c8 : read_u32 data 0 = 1073741824
  · simp [c8, h8 c8, call_if_set]
  by_cases c9 : read_u32 data 0 = 2147483648
  · simp [c9, h9 c9, call_if_set]
  · simp [c1, c2, c3, c4, c5, c6, c7, c8, c9]

theorem socket_recv_loop_no_callbacks (buffer : List Nat) (fuel nl_hdr : Nat) (bytes : Int) :
    (socket_recv_loop no_callbacks buffer fuel nl_hdr bytes).calls = [] := by
  induction fuel generalizing nl_hdr bytes with
  | zero => rfl
  | succ n ih =>
    have hd : ∀ data len, dispatch_event no_callbacks data len = Outcome.ret () :=
      fun data len => dispatch_event_unregistered no_callbacks data len
        (fun k _ => by cases k <;> rfl)
    unfold socket_recv_loop
    simp only [hd, Outcome.ret_and_then]
    split_ifs <;> first | exact ih _ _ | rfl

/-- C8: when no handler is registered for the kind the tag selects, the decoder
calls no handler and returns normally, for every payload and stated length; and
an engine without any handler makes no handler call in a receive call, whatever
`recvfrom` delivered and however long the call runs. -/
theorem unregistered_kind_is_dropped :
    (∀ (cb : event_callbacks) (data : List Nat) (len : Nat),
        (∀ k : what, read_u32 data 0 = k.value → cb.registered k = false) →
        (dispatch_event cb data len).calls = []
          ∧ (dispatch_event cb data len).status = Completion.returned ())
    ∧ (∀ (self : proconn) (fuel : Nat) (r : recvfrom_result),
        self._callbacks = no_callbacks → (socket_recv self fuel r).calls = []) := by
  constructor
  · intro cb data len hnone
    rw [dispatch_event_unregistered cb data len hnone]
    exact ⟨rfl, rfl⟩
  · intro self fuel r hcb
    unfold socket_recv
    split_ifs
    · rfl
    · rfl
    · rw [hcb]; exact socket_recv_loop_no_callbacks _ _ _ _

/-- Witness of C8: a Fork message for an engine that registered nothing, decoded
directly and received in a datagram. -/
theorem unregistered_kind_is_dropped_witness :
    (∀ k : what, read_u32 sample_fork 0 = k.value → no_callbacks.registered k = false)
      ∧ ((dispatch_event no_callbacks sample_fork 40).calls = []
        ∧ (dispatch_event no_callbacks sample_fork 40).status = Completion.returned ())
      ∧ (socket_recv (sample_engine no_callbacks) 4
          (sample_datagram (sample_envelope 0x3 40 sample_fork))).calls = [] :=
  ⟨fun k _ => by cases k <;> rfl,
    unregistered_kind_is_dropped.1 no_callbacks sample_fork 40
      (fun k _ => by cases k <;> rfl),
    unregistered_kind_is_dropped.2 (sample_engine no_callbacks) 4 _ rfl⟩

/-! ## The frame receiver -/

theorem socket_recv_loop_noop (cb : event_callbacks) (buffer : List Nat) (fuel nl_hdr : Nat)
    (bytes : Int) (hok : NLMSG_OK buffer nl_hdr bytes = true)
    (hnoop : nlmsg_type buffer nl_hdr = NLMSG_NOOP) :
    socket_recv_loop cb buffer fuel nl_hdr bytes = { calls := [], status := .running } := by
  induction fuel with
  | zero => rfl
  | succ n ih =>
    unfold socket_recv_loop
    simp only [hok, hnoop, if_true]
    exact ih

/-- C9: a datagram from the kernel peer holding two messages back to back, the
first not of type no-op, error, overrun or done and the second an event message
(not no-op, error or overrun) that ends the datagram: one receive call with
budget for three loop tests runs the decoder on the first payload, then on the
second, then returns 0; when the first decoding returned, the handler calls are
those of the first payload followed by those of the second. -/
theorem two_packed_messages_dispatched_in_order (self : proconn) (fuel : Nat)
    (r : recvfrom_result) (hfuel : 3 ≤ fuel) (hbytes : 0 < r.bytes)
    (hpeer : r.addr.nl_pid = self._kernel_addr.nl_pid)
    (hok1 : NLMSG_OK r.buffer 0 r.bytes = true)
    (ht1 : nlmsg_type r.buffer 0 ∉ [NLMSG_NOOP, NLMSG_ERROR, NLMSG_OVERRUN, NLMSG_DONE])
    (hok2 : NLMSG_OK r.buffer (NLMSG_NEXT r.buffer 0 r.bytes).1
      (NLMSG_NEXT r.buffer 0 r.bytes).2 = true)
    (ht2 : nlmsg_type r.buffer (NLMSG_NEXT r.buffer 0 r.bytes).1 ∉
      [NLMSG_NOOP, NLMSG_ERROR, NLMSG_OVERRUN])
    (hend : nlmsg_type r.buffer (NLMSG_NEXT r.buffer 0 r.bytes).1 = NLMSG_DONE
      ∨ NLMSG_OK r.buffer
          (NLMSG_NEXT r.buffer (NLMSG_NEXT r.buffer 0 r.bytes).1
            (NLMSG_NEXT r.buffer 0 r.bytes).2).1
          (NLMSG_NEXT r.buffer (NLMSG_NEXT r.buffer 0 r.bytes).1
            (NLMSG_NEXT r.buffer 0 r.bytes).2).2 = false) :
    socket_recv self fuel r
        = (dispatch_event self._callbacks (cn_msg_data r.buffer (NLMSG_DATA 0))
            (cn_msg_len r.buffer (NLMSG_DATA 0))).and_then (fun _ =>
          (dispatch_event self._callbacks
            (cn_msg_data r.buffer (NLMSG_DATA (NLMSG_NEXT r.buffer 0 r.bytes).1))
            (cn_msg_len r.buffer (NLMSG_DATA (NLMSG_NEXT r.buffer 0 r.bytes).1))).and_then
          (fun _ => Outcome.ret 0))
      ∧ ((dispatch_event self._callbacks (cn_msg_data r.buffer (NLMSG_DATA 0))
            (cn_msg_len r.buffer (NLMSG_DATA 0))).status = Completion.returned () →
          (socket_recv self fuel r).calls
            = (dispatch_event self._callbacks (cn_msg_data r.buffer (NLMSG_DATA 0))
                (cn_msg_len r.buffer (NLMSG_DATA 0))).calls
              ++ (dispatch_event self._callbacks
                (cn_msg_data r.buffer (NLMSG_DATA (NLMSG_NEXT r.buffer 0 r.bytes).1))
                (cn_msg_len r.buffer (NLMSG_DATA (NLMSG_NEXT r.buffer 0 r.bytes).1))).calls) := by
  obtain ⟨n, rfl⟩ : ∃ n, fuel = n + 3 := ⟨fuel - 3, by omega⟩
  simp only [List.mem_cons, List.mem_singleton, List.not_mem_nil, not_or, or_false] at ht1 ht2
  obtain ⟨a1, a2, a3, a4⟩ := ht1
  obtain ⟨b1, b2, b3⟩ := ht2
  have hnb : ¬ r.bytes ≤ 0 := by omega
  have hmain : socket_recv self (n + 3) r
      = (dispatch_event self._callbacks (cn_msg_data r.buffer (NLMSG_DATA 0))
            (cn_msg_len r.buffer (NLMSG_DATA 0))).and_then (fun _ =>
          (dispatch_event self._callbacks
            (cn_msg_data r.buffer (NLMSG_DATA (NLMSG_NEXT r.buffer 0 r.bytes).1))
            (cn_msg_len r.buffer (NLMSG_DATA (NLMSG_NEXT r.buffer 0 r.bytes).1))).and_then
          (fun _ => Outcome.ret 0)) := by
    unfold socket_recv
    simp only [hnb, if_false, hpeer, ne_eq, not_true_eq_false]
    unfold socket_recv_loop
    simp only [hok1, if_true, a1, a2, a3, a4, or_self, if_false]
    congr 1
    funext _
    unfold socket_recv_loop
    simp only [hok2, if_true, b1, b2, b3, or_self, if_false]
    congr 1
    funext _
    rcases hend with hd | hno
    · simp only [hd, if_true]
    · by_cases hd : nlmsg_type r.buffer (NLMSG_NEXT r.buffer 0 r.bytes).1 = NLMSG_DONE
      · simp only [hd, if_true]
      · simp only [hd, if_false]
        unfold socket_recv_loop
        simp [hno]
  refine ⟨hmain, ?_⟩
  intro hret
  rw [hmain]
  simp only [Outcome.and_then, hret]
  cases (dispatch_event self._callbacks
      (cn_msg_data r.buffer (NLMSG_DATA (NLMSG_NEXT r.buffer 0 r.bytes).1))
      (cn_msg_len r.buffer (NLMSG_DATA (NLMSG_NEXT r.buffer 0 r.bytes).1))).status <;>
    simp [Outcome.ret]

/-- Witness of C9: a 152-byte datagram from the kernel holding a Fork message and
an Exec message, both of type 0x10; one receive call delivers the fork event,
then the exec event, and returns 0. -/
theorem two_packed_messages_dispatched_in_order_witness :
    ((0 : Int) < (sample_datagram
          (sample_envelope 0x10 40 sample_fork ++ sample_envelope 0x10 40 sample_exec)).bytes
        ∧ NLMSG_OK (sample_datagram
            (sample_envelope 0x10 40 sample_fork ++ sample_envelope 0x10 40 sample_exec)).buffer
            0 152 = true
        ∧ NLMSG_OK (sample_datagram
            (sample_envelope 0x10 40 sample_fork ++ sample_envelope 0x10 40 sample_exec)).buffer
            76 76 = true)
      ∧ socket_recv (sample_engine all_callbacks) 3
          (sample_datagram
            (sample_envelope 0x10 40 sample_fork ++ sample_envelope 0x10 40 sample_exec))
        = { calls :=
              [Invocation.fork
                { meta := { cpu := 3, timestamp_ns := 5000000000 }
                  parent := { tid := 651, pid := 650 }
                  child := { tid := 700, pid := 700 } },
               Invocation.exec
                { meta := { cpu := 3, timestamp_ns := 5000000100 }
                  process := { tid := 700, pid := 700 } }]
            status := Completion.returned 0 } :=
  ⟨⟨by decide, by decide, by decide⟩,
    (two_packed_messages_dispatched_in_order (sample_engine all_callbacks) 3
      (sample_datagram
        (sample_envelope 0x10 40 sample_fork ++ sample_envelope 0x10 40 sample_exec))
      (by decide) (by decide) (by decide) (by decide) (by decide) (by decide) (by decide)
      (Or.inr (by decide))).1.trans (by decide)⟩

/-- C10 (evaluation at the failing input): a datagram from the kernel in which a
no-op header is followed by an Exec message; whatever the iteration budget, the
receive call is still executing and has forwarded nothing, since `continue`
re-tests the same header. -/
theorem noop_envelope_is_never_left (fuel : Nat) :
    socket_recv (sample_engine all_callbacks) fuel
        (sample_datagram (sample_noop ++ sample_envelope 0x3 40 sample_exec))
      = { calls := [], status := Completion.running } := by
  have hb : ¬ (sample_datagram (sample_noop ++ sample_envelope 0x3 40 sample_exec)).bytes ≤ 0 := by
    decide
  have hp : ¬ (sample_datagram (sample_noop ++ sample_envelope 0x3 40 sample_exec)).addr.nl_pid
      ≠ (sample_engine all_callbacks)._kernel_addr.nl_pid := by
    decide
  unfold socket_recv
  rw [if_neg hb, if_neg hp]
  exact socket_recv_loop_noop _ _ _ _ _ (by decide) (by decide)

/-! ## Envelope chains -/

theorem Outcome.and_then_assoc {α β γ : Type} (o : Outcome α) (f : α → Outcome β)
    (g : β → Outcome γ) :
    (o.and_then f).and_then g = o.and_then (fun x => (f x).and_then g) := by
  obtain ⟨c, s⟩ := o
  cases s with
  | returned v =>
    cases h : (f v).status with
    | returned w => simp only [Outcome.and_then, h, List.append_assoc]
    | raised e => simp only [Outcome.and_then, h]
    | running => simp only [Outcome.and_then, h]
  | raised e => rfl
  | running => rfl

theorem call_if_set_status {ε : Type} (h : Option (Handler ε)) (mk : ε → Invocation) (e : ε) :
    (call_if_set h mk e).status = Completion.returned ()
      ∨ ∃ m, (call_if_set h mk e).status = Completion.raised (failure.handler_exception m) := by
  cases h with
  | none => exact Or.inl rfl
  | some f =>
    simp only [call_if_set]
    cases f e with
    | ok u => exact Or.inl rfl
    | error m => exact Or.inr ⟨m, rfl⟩

theorem ite_status (c : Prop) [Decidable c] (a b : Outcome Unit)
    (ha : a.status = Completion.returned ()
      ∨ ∃ m, a.status = Completion.raised (failure.handler_exception m))
    (hb : b.status = Completion.returned ()
      ∨ ∃ m, b.status = Completion.raised (failure.handler_exception m)) :
    (if c then a else b).status = Completion.returned ()
      ∨ ∃ m, (if c then a else b).status
          = Completion.raised (failure.handler_exception m) := by
  split
  · exact ha
  · exact hb

theorem dispatch_event_status (cb : event_callbacks) (data : List Nat) (len : Nat) :
    (dispatch_event cb data len).status = Completion.returned ()
      ∨ ∃ m, (dispatch_event cb data len).status
          = Completion.raised (failure.handler_exception m) := by
  simp only [dispatch_event]
  refine ite_status _ _ _ (call_if_set_status _ _ _) ?_
  refine ite_status _ _ _ (call_if_set_status _ _ _) ?_
  refine ite_status _ _ _ (call_if_set_status _ _ _) ?_
  refine ite_status _ _ _ (call_if_set_status _ _ _) ?_
  refine ite_status _ _ _ (call_if_set_status _ _ _) ?_
  refine ite_status _ _ _ (call_if_set_status _ _ _) ?_
  refine ite_status _ _ _ (call_if_set_status _ _ _) ?_
  refine ite_status _ _ _ (call_if_set_status _ _ _) ?_
  refine ite_status _ _ _ (call_if_set_status _ _ _) ?_
  exact Or.inl rfl

theorem plain_envelope_iff (buffer : List Nat) (nl_hdr : Nat) (bytes : Int) :
    plain_envelope buffer nl_hdr bytes = true ↔
      NLMSG_OK buffer nl_hdr bytes = true ∧ nlmsg_type buffer nl_hdr ≠ NLMSG_NOOP
        ∧ nlmsg_type buffer nl_hdr ≠ NLMSG_ERROR ∧ nlmsg_type buffer nl_hdr ≠ NLMSG_OVERRUN
        ∧ nlmsg_type buffer nl_hdr ≠ NLMSG_DONE := by
  simp [plain_envelope]

theorem socket_recv_loop_plain (cb : event_callbacks) (buffer : List Nat) (fuel nl_hdr : Nat)
    (bytes : Int) (hp : plain_envelope buffer nl_hdr bytes = true) :
    socket_recv_loop cb buffer (fuel + 1) nl_hdr bytes
      = (forward_payload cb buffer nl_hdr).and_then (fun _ =>
          socket_recv_loop cb buffer fuel (NLMSG_NEXT buffer nl_hdr bytes).1
            (NLMSG_NEXT buffer nl_hdr bytes).2) := by
  obtain ⟨hok, h1, h2, h3, h4⟩ := (plain_envelope_iff buffer nl_hdr bytes).1 hp
  conv_lhs => unfold socket_recv_loop
  simp only [hok, if_true, h1, h2, h3, h4, or_self, if_false, forward_payload]

theorem socket_recv_loop_plain_chain (cb : event_callbacks) (buffer : List Nat) (k m : Nat) :
    ∀ (nl_hdr : Nat) (bytes : Int), plain_chain buffer k nl_hdr bytes = true →
      socket_recv_loop cb buffer (k + m) nl_hdr bytes
        = (forward_chain cb buffer k nl_hdr bytes).and_then (fun _ =>
            socket_recv_loop cb buffer m (nth_header buffer k (nl_hdr, bytes)).1
              (nth_header buffer k (nl_hdr, bytes)).2) := by
  induction k with
  | zero =>
    intro nl_hdr bytes _
    simp [forward_chain, nth_header, Outcome.ret_and_then]
  | succ k ih =>
    intro nl_hdr bytes hp
    simp only [plain_chain, Bool.and_eq_true] at hp
    obtain ⟨he, hrest⟩ := hp
    have hfuel : k + 1 + m = (k + m) + 1 := by omega
    rw [hfuel, socket_recv_loop_plain cb buffer _ _ _ he]
    simp only [forward_chain, nth_header, Outcome.and_then_assoc]
    congr 1
    funext _
    exact ih _ _ hrest

theorem forward_chain_succ (cb : event_callbacks) (buffer : List Nat) (k : Nat) :
    ∀ (nl_hdr : Nat) (bytes : Int),
      forward_chain cb buffer (k + 1) nl_hdr bytes
        = (forward_chain cb buffer k nl_hdr bytes).and_then (fun _ =>
            forward_payload cb buffer (nth_header buffer k (nl_hdr, bytes)).1) := by
  induction k with
  | zero =>
    intro nl_hdr bytes
    simp only [forward_chain, nth_header, Outcome.ret_and_then]
    cases h : (forward_payload cb buffer nl_hdr).status <;>
      simp [Outcome.and_then, h, Outcome.ret]
    · rw [← h]
    · rw [← h]
    · rw [← h]
  | succ k ih =>
    intro nl_hdr bytes
    rw [forward_chain, ih, forward_chain, Outcome.and_then_assoc]
    rfl
theorem and_then_throw_calls {α β : Type} (o : Outcome α) (e : failure) :
    (o.and_then (fun _ => (Outcome.throw e : Outcome β))).calls = o.calls
      ∧ (∀ v, (o.and_then (fun _ => (Outcome.throw e : Outcome β))).status
          ≠ Completion.returned v)
      ∧ (∀ u, o.status = Completion.returned u →
          (o.and_then (fun _ => (Outcome.throw e : Outcome β))).status = Completion.raised e) := by
  obtain ⟨c, s⟩ := o
  cases s <;> simp [Outcome.and_then, Outcome.throw]

theorem and_then_ret_calls {α β : Type} (o : Outcome α) (w : β) :
    (o.and_then (fun _ => Outcome.ret w)).calls = o.calls
      ∧ (∀ e, (o.and_then (fun _ => Outcome.ret w)).status = Completion.raised e →
          o.status = Completion.raised e)
      ∧ (∀ u, o.status = Completion.returned u →
          (o.and_then (fun _ => Outcome.ret w)).status = Completion.returned w) := by
  obtain ⟨c, s⟩ := o
  cases s <;> simp [Outcome.and_then, Outcome.ret]

/-- C11: a datagram from the kernel peer whose first `k` envelopes are plain event
messages (well formed, none of them no-op, error, overrun or final) and whose
next envelope is marked error or overrun: a receive call with budget for `k + 1`
loop tests forwards the first `k` payloads in order and then throws the
protocol error.  It never returns, its handler calls are exactly those of the
first `k` payloads, and when those decodings all returned the call ends with
`proconn_error("Received error", type)`. -/
theorem error_envelope_aborts_receive (self : proconn) (fuel : Nat) (r : recvfrom_result)
    (k : Nat) (hfuel : k + 1 ≤ fuel) (hbytes : 0 < r.bytes)
    (hpeer : r.addr.nl_pid = self._kernel_addr.nl_pid)
    (hplain : plain_chain r.buffer k 0 r.bytes = true)
    (hok : NLMSG_OK r.buffer (nth_header r.buffer k (0, r.bytes)).1
      (nth_header r.buffer k (0, r.bytes)).2 = true)
    (herr : nlmsg_type r.buffer (nth_header r.buffer k (0, r.bytes)).1 = NLMSG_ERROR
      ∨ nlmsg_type r.buffer (nth_header r.buffer k (0, r.bytes)).1 = NLMSG_OVERRUN) :
    socket_recv self fuel r
        = (forward_chain self._callbacks r.buffer k 0 r.bytes).and_then (fun _ =>
            Outcome.throw (failure.proconn_error "Received error"
              (nlmsg_type r.buffer (nth_header r.buffer k (0, r.bytes)).1)))
      ∧ (socket_recv self fuel r).calls
          = (forward_chain self._callbacks r.buffer k 0 r.bytes).calls
      ∧ (∀ v, (socket_recv self fuel r).status ≠ Completion.returned v)
      ∧ ((forward_chain self._callbacks r.buffer k 0 r.bytes).status = Completion.returned () →
          (socket_recv self fuel r).status
            = Completion.raised (failure.proconn_error "Received error"
                (nlmsg_type r.buffer (nth_header r.buffer k (0, r.bytes)).1))) := by
  obtain ⟨n, rfl⟩ : ∃ n, fuel = k + (n + 1) := ⟨fuel - (k + 1), by omega⟩
  have hnb : ¬ r.bytes ≤ 0 := by omega
  have hnoop : nlmsg_type r.buffer (nth_header r.buffer k (0, r.bytes)).1 ≠ NLMSG_NOOP := by
    rcases herr with h | h <;> rw [h] <;> decide
  have hmain : socket_recv self (k + (n + 1)) r
      = (forward_chain self._callbacks r.buffer k 0 r.bytes).and_then (fun _ =>
          Outcome.throw (failure.proconn_error "Received error"
            (nlmsg_type r.buffer (nth_header r.buffer k (0, r.bytes)).1))) := by
    unfold socket_recv
    simp only [hnb, if_false, hpeer, ne_eq, not_true_eq_false]
    rw [socket_recv_loop_plain_chain _ _ _ _ _ _ hplain]
    congr 1
    funext _
    conv_lhs => unfold socket_recv_loop
    simp only [hok, if_true, hnoop, if_false, herr]
  obtain ⟨h1, h2, h3⟩ := and_then_throw_calls (β := Int)
    (forward_chain self._callbacks r.buffer k 0 r.bytes)
    (failure.proconn_error "Received error"
      (nlmsg_type r.buffer (nth_header r.buffer k (0, r.bytes)).1))
  rw [hmain]
  exact ⟨rfl, h1, h2, h3 ()⟩

/-- C18: a datagram from the kernel peer whose first `k` envelopes are plain event
messages and whose next envelope is marked final (`NLMSG_DONE`): a receive call
with budget for `k + 1` loop tests forwards the payloads of these `k + 1`
envelopes in order, the final one included, and then returns 0; its handler
calls are exactly those of the `k + 1` payloads, it raises only what one of
these decodings raised, and it returns 0 when they all returned. -/
theorem final_envelope_ends_walk (self : proconn) (fuel : Nat) (r : recvfrom_result)
    (k : Nat) (hfuel : k + 1 ≤ fuel) (hbytes : 0 < r.bytes)
    (hpeer : r.addr.nl_pid = self._kernel_addr.nl_pid)
    (hplain : plain_chain r.buffer k 0 r.bytes = true)
    (hok : NLMSG_OK r.buffer (nth_header r.buffer k (0, r.bytes)).1
      (nth_header r.buffer k (0, r.bytes)).2 = true)
    (hdone : nlmsg_type r.buffer (nth_header r.buffer k (0, r.bytes)).1 = NLMSG_DONE) :
    socket_recv self fuel r
        = (forward_chain self._callbacks r.buffer (k + 1) 0 r.bytes).and_then (fun _ =>
            Outcome.ret 0)
      ∧ (socket_recv self fuel r).calls
          = (forward_chain self._callbacks r.buffer (k + 1) 0 r.bytes).calls
      ∧ (∀ e, (socket_recv self fuel r).status = Completion.raised e →
          (forward_chain self._callbacks r.buffer (k + 1) 0 r.bytes).status
            = Completion.raised e)
      ∧ ((forward_chain self._callbacks r.buffer (k + 1) 0 r.bytes).status
            = Completion.returned () →
          (socket_recv self fuel r).status = Completion.returned 0) := by
  obtain ⟨n, rfl⟩ : ∃ n, fuel = k + (n + 1) := ⟨fuel - (k + 1), by omega⟩
  have hnb : ¬ r.bytes ≤ 0 := by omega
  have hmain : socket_recv self (k + (n + 1)) r
      = (forward_chain self._callbacks r.buffer (k + 1) 0 r.bytes).and_then (fun _ =>
          Outcome.ret 0) := by
    unfold socket_recv
    simp only [hnb, if_false, hpeer, ne_eq, not_true_eq_false]
    rw [socket_recv_loop_plain_chain _ _ _ _ _ _ hplain, forward_chain_succ,
      Outcome.and_then_assoc]
    congr 1
    funext _
    conv_lhs => unfold socket_recv_loop
    have d1 : ¬ NLMSG_DONE = NLMSG_NOOP := by decide
    have d2 : ¬ (NLMSG_DONE = NLMSG_ERROR ∨ NLMSG_DONE = NLMSG_OVERRUN) := by decide
    simp only [hok, if_true, hdone, d1, d2, if_false, forward_payload]
  obtain ⟨c1, c2, c3⟩ := and_then_ret_calls
    (forward_chain self._callbacks r.buffer (k + 1) 0 r.bytes) (0 : Int)
  rw [hmain]
  exact ⟨rfl, c1, c2, c3 ()⟩

/-- Witness of C11: Fork, Exec, then an envelope marked error, then a Coredump
message; the fork and exec handlers run, then the call throws. -/
theorem error_envelope_aborts_receive_witness :
    (plain_chain sample_with_error.buffer 2 0 sample_with_error.bytes = true
        ∧ nth_header sample_with_error.buffer 2 (0, sample_with_error.bytes) = (152, 152)
        ∧ nlmsg_type sample_with_error.buffer 152 = NLMSG_ERROR)
      ∧ socket_recv (sample_engine all_callbacks) 3 sample_with_error
        = { calls :=
              [Invocation.fork
                { meta := { cpu := 3, timestamp_ns := 5000000000 }
                  parent := { tid := 651, pid := 650 }
                  child := { tid := 700, pid := 700 } },
               Invocation.exec
                { meta := { cpu := 3, timestamp_ns := 5000000100 }
                  process := { tid := 700, pid := 700 } }]
            status := Completion.raised (failure.proconn_error "Received error" 2) } :=
  ⟨⟨by decide, by decide, by decide⟩,
    (error_envelope_aborts_receive (sample_engine all_callbacks) 3 sample_with_error 2
      (by decide) (by decide) (by decide) (by decide) (by decide)
      (Or.inl (by decide))).1.trans (by decide)⟩

/-- Witness of C18: Fork, then Exec marked final, then an Exit message; the fork and
exec handlers run, the exit handler does not, and the call returns 0. -/
theorem final_envelope_ends_walk_witness :
    (plain_chain sample_with_final.buffer 1 0 sample_with_final.bytes = true
        ∧ nth_header sample_with_final.buffer 1 (0, sample_with_final.bytes) = (76, 152)
        ∧ nlmsg_type sample_with_final.buffer 76 = NLMSG_DONE)
      ∧ socket_recv (sample_engine all_callbacks) 2 sample_with_final
        = { calls :=
              [Invocation.fork
                { meta := { cpu := 3, timestamp_ns := 5000000000 }
                  parent := { tid := 651, pid := 650 }
                  child := { tid := 700, pid := 700 } },
               Invocation.exec
                { meta := { cpu := 3, timestamp_ns := 5000000100 }
                  process := { tid := 700, pid := 700 } }]
            status := Completion.returned 0 } :=
  ⟨⟨by decide, by decide, by decide⟩,
    (final_envelope_ends_walk (sample_engine all_callbacks) 2 sample_with_final 1
      (by decide) (by decide) (by decide) (by decide) (by decide) (by decide)).1.trans
      (by decide)⟩

/-! ## How a receive call can end -/

/-- The ways the envelope walk can end. -/
theorem socket_recv_loop_status (cb : event_callbacks) (buffer : List Nat) (fuel : Nat) :
    ∀ (nl_hdr : Nat) (bytes : Int),
      (socket_recv_loop cb buffer fuel nl_hdr bytes).status = Completion.returned 0
        ∨ (∃ t : Nat, (socket_recv_loop cb buffer fuel nl_hdr bytes).status
            = Completion.raised (failure.proconn_error "Received error" t))
        ∨ (∃ m, (socket_recv_loop cb buffer fuel nl_hdr bytes).status
            = Completion.raised (failure.handler_exception m))
        ∨ (socket_recv_loop cb buffer fuel nl_hdr bytes).status = Completion.running := by
  induction fuel with
  | zero => intro nl_hdr bytes; exact Or.inr (Or.inr (Or.inr rfl))
  | succ n ih =>
    intro nl_hdr bytes
    unfold socket_recv_loop
    by_cases hok : NLMSG_OK buffer nl_hdr bytes = true
    · simp only [hok, if_true]
      by_cases hnoop : nlmsg_type buffer nl_hdr = NLMSG_NOOP
      · simp only [hnoop, if_true]
        exact ih _ _
      · simp only [hnoop, if_false]
        by_cases herr : nlmsg_type buffer nl_hdr = NLMSG_ERROR
            ∨ nlmsg_type buffer nl_hdr = NLMSG_OVERRUN
        · simp only [herr, if_true]
          exact Or.inr (Or.inl ⟨_, rfl⟩)
        · simp only [herr, if_false]
          rcases dispatch_event_status cb (cn_msg_data buffer (NLMSG_DATA nl_hdr))
              (cn_msg_len buffer (NLMSG_DATA nl_hdr)) with hd | ⟨m, hd⟩
          · simp only [Outcome.and_then, hd]
            by_cases hdone : nlmsg_type buffer nl_hdr = NLMSG_DONE
            · simp only [hdone, if_true]
              exact Or.inl rfl
            · simp only [hdone, if_false]
              exact ih _ _
          · simp only [Outcome.and_then, hd]
            exact Or.inr (Or.inr (Or.inl ⟨m, rfl⟩))
    · simp only [hok, if_false]
      exact Or.inl rfl

/-- C12: with the kernel address the constructor builds (identity 0), a datagram
(positive byte count) whose sender identity is not 0 makes the receive call throw
`proconn_error("Received message from unexpected source", identity)` without
any handler call, whatever the buffer holds and whatever the budget; for sender
identity 0 the call goes on to the envelope walk, so that error is not raised. -/
theorem unexpected_sender_is_rejected (self : proconn) (fuel : Nat) (r : recvfrom_result)
    (hkernel : self._kernel_addr = build_kernel_addr) (hbytes : 0 < r.bytes) :
    (r.addr.nl_pid ≠ 0 →
        socket_recv self fuel r
          = { calls := []
              status := Completion.raised
                (failure.proconn_error "Received message from unexpected source"
                  r.addr.nl_pid) })
      ∧ (r.addr.nl_pid = 0 →
          socket_recv self fuel r = socket_recv_loop self._callbacks r.buffer fuel 0 r.bytes
            ∧ ∀ c, (socket_recv self fuel r).status
                ≠ Completion.raised
                    (failure.proconn_error "Received message from unexpected source" c)) := by
  have hnb : ¬ r.bytes ≤ 0 := by omega
  have hk : self._kernel_addr.nl_pid = 0 := by rw [hkernel]; rfl
  constructor
  · intro hne
    unfold socket_recv
    simp only [hnb, if_false, hk, ne_eq, hne, not_false_eq_true, if_true, Outcome.throw]
  · intro heq
    have hrecv : socket_recv self fuel r
        = socket_recv_loop self._callbacks r.buffer fuel 0 r.bytes := by
      unfold socket_recv
      simp only [hnb, if_false, hk, heq, ne_eq, not_true_eq_false]
    refine ⟨hrecv, ?_⟩
    intro c hc
    rw [hrecv] at hc
    rcases socket_recv_loop_status self._callbacks r.buffer fuel 0 r.bytes with
      h | ⟨t, h⟩ | ⟨m, h⟩ | h
    · rw [h] at hc; exact absurd hc (by simp)
    · rw [h] at hc
      simp only [Completion.raised.injEq, failure.proconn_error.injEq] at hc
      exact absurd hc.1 (by decide)
    · rw [h] at hc; exact absurd hc (by simp)
    · rw [h] at hc; exact absurd hc (by simp)

/-- Witness of C12: the sample Fork datagram claimed by sender 4242 is rejected, the
same datagram from sender 0 is not. -/
theorem unexpected_sender_is_rejected_witness :
    ((sample_engine all_callbacks)._kernel_addr = build_kernel_addr
        ∧ (0 : Int) < 76)
      ∧ socket_recv (sample_engine all_callbacks) 3
          { bytes := 76, addr := build_proconn_addr 4242
            buffer := sample_envelope 0x3 40 sample_fork }
        = { calls := []
            status := Completion.raised
              (failure.proconn_error "Received message from unexpected source" 4242) } :=
  ⟨⟨rfl, by decide⟩,
    (unexpected_sender_is_rejected (sample_engine all_callbacks) 3
      { bytes := 76, addr := build_proconn_addr 4242
        buffer := sample_envelope 0x3 40 sample_fork } rfl (by decide)).1 (by decide)⟩

/-- C13: when `recvfrom` returns 0 or a negative count the receive call throws
`proconn_error("Receive message failed", count)` with no handler call, and the
result does not depend on the sender address or the buffer; when the count is
positive that error is not raised. -/
theorem failed_read_raises_receive_error (self : proconn) (fuel : Nat) (r : recvfrom_result) :
    (r.bytes ≤ 0 →
        ∀ (addr : sockaddr_nl) (buffer : List Nat),
          socket_recv self fuel { bytes := r.bytes, addr := addr, buffer := buffer }
            = { calls := []
                status := Completion.raised
                  (failure.proconn_error "Receive message failed" r.bytes) })
      ∧ (0 < r.bytes →
          ∀ c, (socket_recv self fuel r).status
            ≠ Completion.raised (failure.proconn_error "Receive message failed" c)) := by
  constructor
  · intro hle addr buffer
    unfold socket_recv
    simp only [hle, if_true, Outcome.throw]
  · intro hpos c hc
    have hnb : ¬ r.bytes ≤ 0 := by omega
    unfold socket_recv at hc
    simp only [hnb, if_false] at hc
    by_cases hp : r.addr.nl_pid ≠ self._kernel_addr.nl_pid
    · rw [if_pos hp] at hc
      simp only [Outcome.throw, Completion.raised.injEq, failure.proconn_error.injEq] at hc
      exact absurd hc.1 (by decide)
    · rw [if_neg hp] at hc
      rcases socket_recv_loop_status self._callbacks r.buffer fuel 0 r.bytes with
        h | ⟨t, h⟩ | ⟨m, h⟩ | h
      · rw [h] at hc; exact absurd hc (by simp)
      · rw [h] at hc
        simp only [Completion.raised.injEq, failure.proconn_error.injEq] at hc
        exact absurd hc.1 (by decide)
      · rw [h] at hc; exact absurd hc (by simp)
      · rw [h] at hc; exact absurd hc (by simp)

/-- Witness of C13: a read that returns 0 (the socket was closed) and a read that
returns -1, both with handlers registered and a Fork message in the buffer. -/
theorem failed_read_raises_receive_error_witness :
    socket_recv (sample_engine all_callbacks) 3
        { bytes := 0, addr := build_kernel_addr, buffer := sample_envelope 0x3 40 sample_fork }
      = { calls := []
          status := Completion.raised (failure.proconn_error "Receive message failed" 0) }
    ∧ socket_recv (sample_engine all_callbacks) 3
        { bytes := -1, addr := build_proconn_addr 7, buffer := sample_envelope 0x3 40 sample_fork }
      = { calls := []
          status := Completion.raised (failure.proconn_error "Receive message failed" (-1)) } :=
  ⟨(failed_read_raises_receive_error (sample_engine all_callbacks) 3
      { bytes := 0, addr := build_kernel_addr, buffer := [] }).1 (by decide) _ _,
   (failed_read_raises_receive_error (sample_engine all_callbacks) 3
      { bytes := -1, addr := build_kernel_addr, buffer := [] }).1 (by decide) _ _⟩

/-! ## The control path -/

theorem send_op_iov_eq (tid op : Nat) :
    send_op_iov tid op
      = le32 56 ++ le16 NLMSG_DONE ++ [0, 0] ++ [0, 0, 0, 0] ++ le32 tid
          ++ le32 CN_IDX_PROC ++ le32 CN_VAL_PROC ++ [0, 0, 0, 0] ++ [0, 0, 0, 0]
          ++ le16 4 ++ [0, 0] ++ le32 op ++ List.replicate 16 0 := by
  rfl

theorem send_op_iov_fields (tid op : Nat) :
    read_u32 (send_op_iov tid op) 16 = CN_IDX_PROC
      ∧ read_u32 (send_op_iov tid op) 20 = CN_VAL_PROC
      ∧ cn_msg_len (send_op_iov tid op) (NLMSG_DATA 0) = 4
      ∧ ((send_op_iov tid op).drop 36).take 4 = le32 op
      ∧ cn_msg_data (send_op_iov tid op) (NLMSG_DATA 0) = le32 op ++ List.replicate 16 0 := by
  rw [send_op_iov_eq]
  simp [read_u32, read_u16, byte_at, le32, le16, CN_IDX_PROC, CN_VAL_PROC, cn_msg_len,
    cn_msg_data, NLMSG_DATA, NLMSG_HDRLEN, NLMSG_ALIGN, sizeof_nlmsghdr, offsetof_cn_msg_len,
    offsetof_cn_msg_data]

theorem send_op_stated_length (tid op : Nat) :
    nlmsg_len (send_op_buffer tid op) 0 = 56 := by
  rfl

theorem socket_send_op_result (self : proconn) (tid op : Nat) (res : sendmsg_result) :
    (socket_send_op self tid op res).2
      = if res.bytes < 0 ∨ res.bytes ≠ 56 then -res.errno else 0 := by
  unfold socket_send_op
  rw [send_op_stated_length]
  simp only [Nat.cast_ofNat]

theorem socket_send_op_call (self : proconn) (tid op : Nat) (res : sendmsg_result) :
    (socket_send_op self tid op res).1
      = Syscall.sendmsg self._socket self._kernel_addr (send_op_iov tid op) :=
  rfl

theorem socket_register_syscalls (self : proconn) (tid : Nat) (res : sendmsg_result) :
    (socket_register self tid res).syscalls
      = [Syscall.sendmsg self._socket self._kernel_addr (send_op_iov tid PROC_CN_MCAST_LISTEN)]
    ∧ (socket_unregister self tid res).syscalls
      = [Syscall.sendmsg self._socket self._kernel_addr
          (send_op_iov tid PROC_CN_MCAST_IGNORE)] := by
  constructor
  · rw [← socket_send_op_call self tid PROC_CN_MCAST_LISTEN res]
    unfold socket_register
    simp only []
    split
    · rfl
    · rfl
  · rw [← socket_send_op_call self tid PROC_CN_MCAST_IGNORE res]
    unfold socket_unregister
    simp only []
    split
    · rfl
    · rfl

/-- When register and unregister throw: exactly when the send was negative or short
and `errno` is not 0 at that moment. -/
theorem control_send_status (self : proconn) (tid : Nat) (res : sendmsg_result) :
    (socket_register self tid res).status
        = (if (res.bytes < 0 ∨ res.bytes ≠ 56) ∧ res.errno ≠ 0 then
            Completion.raised (failure.system_error res.errno "Couldn't register socket")
          else Completion.returned ())
      ∧ (socket_unregister self tid res).status
        = (if (res.bytes < 0 ∨ res.bytes ≠ 56) ∧ res.errno ≠ 0 then
            Completion.raised (failure.system_error res.errno "Couldn't unregister socket")
          else Completion.returned ()) := by
  simp only [socket_register, socket_unregister, socket_send_op_result]
  by_cases hs : res.bytes < 0 ∨ res.bytes ≠ 56
  · by_cases he : res.errno = 0
    · simp [hs, he]
    · simp [hs, he]
  · simp [hs]

/-- C14: after a `stop()` that returned, a further `stop()` makes no system call
(no control message, no `close`), returns, and leaves the engine as it is; so
does any sequence of further calls, and `stop(); stop()` has the effect of the
first `stop()`.  When the engine had a valid socket the handle is -1 afterwards. -/
theorem stop_is_idempotent (self : proconn) (tid : Nat) (res : sendmsg_result)
    (hret : (stop self tid res).status = Completion.returned ()) :
    (∀ (tid2 : Nat) (res2 : sendmsg_result),
        (stop (stop self tid res).state tid2 res2).syscalls = []
          ∧ (stop (stop self tid res).state tid2 res2).status = Completion.returned ()
          ∧ (stop (stop self tid res).state tid2 res2).state = (stop self tid res).state)
      ∧ (∀ envs : List (Nat × sendmsg_result),
          (stop_all (stop self tid res).state envs).syscalls = []
            ∧ (stop_all (stop self tid res).state envs).status = Completion.returned ()
            ∧ (stop_all (stop self tid res).state envs).state = (stop self tid res).state)
      ∧ (∀ (tid2 : Nat) (res2 : sendmsg_result),
          (stop_all self [(tid, res), (tid2, res2)]).syscalls = (stop self tid res).syscalls
            ∧ (stop_all self [(tid, res), (tid2, res2)]).status = Completion.returned ()
            ∧ (stop_all self [(tid, res), (tid2, res2)]).state = (stop self tid res).state)
      ∧ (0 ≤ self._socket → (stop self tid res).state._socket = -1) := by
  have hneg : (stop self tid res).state._socket < 0 := by
    unfold stop
    by_cases hs : self._socket < 0
    · simp only [hs, if_true]
    · simp only [hs, if_false]
      cases hu : (socket_unregister self tid res).status with
      | returned u => simp
      | raised e =>
        unfold stop at hret
        simp [hs, hu] at hret
      | running =>
        unfold stop at hret
        simp [hs, hu] at hret
  have hone : ∀ (s : proconn), s._socket < 0 → ∀ (tid2 : Nat) (res2 : sendmsg_result),
      (stop s tid2 res2).syscalls = [] ∧ (stop s tid2 res2).status = Completion.returned ()
        ∧ (stop s tid2 res2).state = s := by
    intro s hs tid2 res2
    unfold stop
    simp only [hs, if_true, and_self]
  have hall : ∀ (envs : List (Nat × sendmsg_result)) (s : proconn), s._socket < 0 →
      (stop_all s envs).syscalls = [] ∧ (stop_all s envs).status = Completion.returned ()
        ∧ (stop_all s envs).state = s := by
    intro envs
    induction envs with
    | nil => intro s _; exact ⟨rfl, rfl, rfl⟩
    | cons env rest ih =>
      intro s hs
      obtain ⟨h1, h2, h3⟩ := hone s hs env.1 env.2
      obtain ⟨i1, i2, i3⟩ := ih s hs
      simp only [stop_all, h2, h1, h3, List.nil_append]
      exact ⟨i1, i2, i3⟩
  refine ⟨hone _ hneg, fun envs => hall envs _ hneg, ?_, ?_⟩
  · intro tid2 res2
    obtain ⟨h1, h2, h3⟩ := hone _ hneg tid2 res2
    simp only [stop_all, hret, h1, h2, h3, List.append_nil, and_self]
  · intro hvalid
    have hs : ¬ self._socket < 0 := by omega
    unfold stop
    simp only [hs, if_false]
    cases hu : (socket_unregister self tid res).status with
    | returned u => simp
    | raised e =>
      unfold stop at hret
      simp [hs, hu] at hret
    | running =>
      unfold stop at hret
      simp [hs, hu] at hret

/-- Witness of C14: the sample engine (socket 3) stopped with a complete send; the
first call sends the IGNORE message and closes descriptor 3. -/
theorem stop_is_idempotent_witness :
    ((stop (sample_engine no_callbacks) 4242 { bytes := 56, errno := 0 }).status
          = Completion.returned ()
        ∧ (stop (sample_engine no_callbacks) 4242 { bytes := 56, errno := 0 }).syscalls
          = [Syscall.sendmsg 3 build_kernel_addr (send_op_iov 4242 PROC_CN_MCAST_IGNORE),
             Syscall.close 3])
      ∧ (stop (stop (sample_engine no_callbacks) 4242 { bytes := 56, errno := 0 }).state 77
            { bytes := -1, errno := 9 }).syscalls = []
      ∧ (stop (sample_engine no_callbacks) 4242 { bytes := 56, errno := 0 }).state._socket
          = -1 :=
  ⟨⟨by decide, by decide⟩,
    ((stop_is_idempotent (sample_engine no_callbacks) 4242 { bytes := 56, errno := 0 }
      (by decide)).1 77 { bytes := -1, errno := 9 }).1,
    (stop_is_idempotent (sample_engine no_callbacks) 4242 { bytes := 56, errno := 0 }
      (by decide)).2.2.2 (by decide)⟩

/-- C15 (evaluation at the failing input): `sendmsg` reports 40 bytes sent of the 56
the envelope states while `errno` is 0; `socket_register` and
`socket_unregister` return normally, and `stop()` goes on to close the socket. -/
theorem short_send_is_not_reported :
    nlmsg_len (send_op_buffer 4242 PROC_CN_MCAST_LISTEN) 0 = 56
      ∧ (socket_register (sample_engine no_callbacks) 4242 { bytes := 40, errno := 0 }).status
          = Completion.returned ()
      ∧ (socket_unregister (sample_engine no_callbacks) 4242 { bytes := 40, errno := 0 }).status
          = Completion.returned ()
      ∧ (stop (sample_engine no_callbacks) 4242 { bytes := 40, errno := 0 }).status
          = Completion.returned () := by
  decide

/-- C17: `socket_register` makes exactly one `sendmsg` call, on the engine socket,
addressed to the kernel address (identity 0), with a message whose `cn_msg`
header holds `CN_IDX_PROC` / `CN_VAL_PROC` at offsets 16 and 20 and length 4 at
offset 32 and whose four payload bytes at offset 36 are `PROC_CN_MCAST_LISTEN`;
`socket_unregister` does the same with `PROC_CN_MCAST_IGNORE`.  For one thread id
the two messages are equal outside the payload bytes 36..39; for two thread ids
they are equal outside these and the `nlmsg_pid` bytes 12..15, which hold the
calling thread id. -/
theorem control_message_layout (self : proconn) (tid : Nat) (res : sendmsg_result)
    (hkernel : self._kernel_addr = build_kernel_addr) :
    ((socket_register self tid res).syscalls
          = [Syscall.sendmsg self._socket build_kernel_addr
              (send_op_iov tid PROC_CN_MCAST_LISTEN)]
        ∧ (socket_unregister self tid res).syscalls
          = [Syscall.sendmsg self._socket build_kernel_addr
              (send_op_iov tid PROC_CN_MCAST_IGNORE)]
        ∧ build_kernel_addr.nl_pid = 0)
      ∧ (read_u32 (send_op_iov tid PROC_CN_MCAST_LISTEN) 16 = CN_IDX_PROC
        ∧ read_u32 (send_op_iov tid PROC_CN_MCAST_LISTEN) 20 = CN_VAL_PROC
        ∧ cn_msg_len (send_op_iov tid PROC_CN_MCAST_LISTEN) (NLMSG_DATA 0) = 4
        ∧ ((send_op_iov tid PROC_CN_MCAST_LISTEN).drop 36).take 4 = le32 PROC_CN_MCAST_LISTEN
        ∧ cn_msg_data (send_op_iov tid PROC_CN_MCAST_LISTEN) (NLMSG_DATA 0)
            = le32 PROC_CN_MCAST_LISTEN ++ List.replicate 16 0)
      ∧ (read_u32 (send_op_iov tid PROC_CN_MCAST_IGNORE) 16 = CN_IDX_PROC
        ∧ read_u32 (send_op_iov tid PROC_CN_MCAST_IGNORE) 20 = CN_VAL_PROC
        ∧ cn_msg_len (send_op_iov tid PROC_CN_MCAST_IGNORE) (NLMSG_DATA 0) = 4
        ∧ ((send_op_iov tid PROC_CN_MCAST_IGNORE).drop 36).take 4 = le32 PROC_CN_MCAST_IGNORE
        ∧ cn_msg_data (send_op_iov tid PROC_CN_MCAST_IGNORE) (NLMSG_DATA 0)
            = le32 PROC_CN_MCAST_IGNORE ++ List.replicate 16 0)
      ∧ ((send_op_iov tid PROC_CN_MCAST_LISTEN).take 36
            = (send_op_iov tid PROC_CN_MCAST_IGNORE).take 36
        ∧ (send_op_iov tid PROC_CN_MCAST_LISTEN).drop 40
            = (send_op_iov tid PROC_CN_MCAST_IGNORE).drop 40
        ∧ (send_op_iov tid PROC_CN_MCAST_LISTEN).length
            = (send_op_iov tid PROC_CN_MCAST_IGNORE).length)
      ∧ (∀ tid2 : Nat,
          (send_op_iov tid PROC_CN_MCAST_LISTEN).take 12
              = (send_op_iov tid2 PROC_CN_MCAST_IGNORE).take 12
            ∧ ((send_op_iov tid PROC_CN_MCAST_LISTEN).drop 16).take 20
              = ((send_op_iov tid2 PROC_CN_MCAST_IGNORE).drop 16).take 20
            ∧ (send_op_iov tid PROC_CN_MCAST_LISTEN).drop 40
              = (send_op_iov tid2 PROC_CN_MCAST_IGNORE).drop 40) := by
  refine ⟨⟨?_, ?_, rfl⟩, ?_, ?_, ?_, ?_⟩
  · rw [← hkernel]
    exact (socket_register_syscalls self tid res).1
  · rw [← hkernel]
    exact (socket_register_syscalls self tid res).2
  · exact send_op_iov_fields tid PROC_CN_MCAST_LISTEN
  · exact send_op_iov_fields tid PROC_CN_MCAST_IGNORE
  · rw [send_op_iov_eq, send_op_iov_eq]
    simp [le32, le16]
  · intro tid2
    rw [send_op_iov_eq, send_op_iov_eq]
    simp [le32, le16]

/-- Witness of C17: the message thread 4242 sends to register, byte for byte. -/
theorem control_message_layout_witness :
    (sample_engine no_callbacks)._kernel_addr = build_kernel_addr
      ∧ (socket_register (sample_engine no_callbacks) 4242 { bytes := 56, errno := 0 }).syscalls
        = [Syscall.sendmsg 3 { nl_family := 16, nl_groups := 1, nl_pid := 0 }
            [56, 0, 0, 0, 3, 0, 0, 0, 0, 0, 0, 0, 146, 16, 0, 0,
             1, 0, 0, 0, 1, 0, 0, 0, 0, 0, 0, 0, 0, 0, 0, 0, 4, 0, 0, 0,
             1, 0, 0, 0,
             0, 0, 0, 0, 0, 0, 0, 0, 0, 0, 0, 0, 0, 0, 0, 0]] :=
  ⟨rfl,
    (control_message_layout (sample_engine no_callbacks) 4242 { bytes := 56, errno := 0 }
      rfl).1.1.trans (by decide)⟩

/-! ## `run` -/

/-- The ways a receive call can end. -/
theorem socket_recv_status (self : proconn) (fuel : Nat) (r : recvfrom_result) :
    (socket_recv self fuel r).status = Completion.returned 0
      ∨ (∃ c : Int, (socket_recv self fuel r).status
          = Completion.raised (failure.proconn_error "Receive message failed" c))
      ∨ (∃ c : Int, (socket_recv self fuel r).status
          = Completion.raised
              (failure.proconn_error "Received message from unexpected source" c))
      ∨ (∃ c : Int, (socket_recv self fuel r).status
          = Completion.raised (failure.proconn_error "Received error" c))
      ∨ (∃ m, (socket_recv self fuel r).status
          = Completion.raised (failure.handler_exception m))
      ∨ (socket_recv self fuel r).status = Completion.running := by
  unfold socket_recv
  by_cases hb : r.bytes ≤ 0
  · rw [if_pos hb]
    exact Or.inr (Or.inl ⟨_, rfl⟩)
  · rw [if_neg hb]
    by_cases hp : r.addr.nl_pid ≠ self._kernel_addr.nl_pid
    · rw [if_pos hp]
      exact Or.inr (Or.inr (Or.inl ⟨_, rfl⟩))
    · rw [if_neg hp]
      rcases socket_recv_loop_status self._callbacks r.buffer fuel 0 r.bytes with
        h | ⟨t, h⟩ | ⟨m, h⟩ | h
      · exact Or.inl h
      · exact Or.inr (Or.inr (Or.inr (Or.inl ⟨_, h⟩)))
      · exact Or.inr (Or.inr (Or.inr (Or.inr (Or.inl ⟨_, h⟩))))
      · exact Or.inr (Or.inr (Or.inr (Or.inr (Or.inr h))))

/-- The receive loop of `run` does not return; it ends only with an error of a
receive call. -/
theorem run_loop_status (self : proconn) (recv_fuel : Nat) (recvs : Nat → recvfrom_result)
    (fuel : Nat) :
    ∀ i : Nat,
      (∃ c : Int, (run_loop self recv_fuel recvs fuel i).status
          = Completion.raised (failure.proconn_error "Receive message failed" c))
      ∨ (∃ c : Int, (run_loop self recv_fuel recvs fuel i).status
          = Completion.raised
              (failure.proconn_error "Received message from unexpected source" c))
      ∨ (∃ c : Int, (run_loop self recv_fuel recvs fuel i).status
          = Completion.raised (failure.proconn_error "Received error" c))
      ∨ (∃ m, (run_loop self recv_fuel recvs fuel i).status
          = Completion.raised (failure.handler_exception m))
      ∨ (run_loop self recv_fuel recvs fuel i).status = Completion.running := by
  induction fuel with
  | zero => intro i; exact Or.inr (Or.inr (Or.inr (Or.inr rfl)))
  | succ n ih =>
    intro i
    unfold run_loop
    rcases socket_recv_status self recv_fuel (recvs i) with
      h | ⟨c, h⟩ | ⟨c, h⟩ | ⟨c, h⟩ | ⟨m, h⟩ | h
    · simp only [Outcome.and_then, h, if_true]
      exact ih (i + 1)
    · simp only [Outcome.and_then, h]
      exact Or.inl ⟨c, rfl⟩
    · simp only [Outcome.and_then, h]
      exact Or.inr (Or.inl ⟨c, rfl⟩)
    · simp only [Outcome.and_then, h]
      exact Or.inr (Or.inr (Or.inl ⟨c, rfl⟩))
    · simp only [Outcome.and_then, h]
      exact Or.inr (Or.inr (Or.inr (Or.inl ⟨m, rfl⟩)))
    · simp [Outcome.and_then, h]

/-- C16: `run()` never returns normally, whatever `sendmsg` and the `recvfrom` calls
hand back and however long it runs: a receive call that returns, returns 0, so
the loop goes on; when `run()` ends it ends with the `system_error` of the
registration, with a `proconn_error` of a receive call (failed read, unexpected
sender, error envelope) or with the exception of a handler. -/
theorem run_never_returns (self : proconn) (tid : Nat) (reg : sendmsg_result)
    (recv_fuel : Nat) (recvs : Nat → recvfrom_result) (fuel : Nat) :
    (run self tid reg recv_fuel recvs fuel).status ≠ Completion.returned ()
      ∧ (∀ (r : recvfrom_result) (rc : Int),
          (socket_recv self recv_fuel r).status = Completion.returned rc → rc = 0)
      ∧ (∀ e, (run self tid reg recv_fuel recvs fuel).status = Completion.raised e →
          (∃ c : Int, e = failure.system_error c "Couldn't register socket")
            ∨ (∃ c : Int, e = failure.proconn_error "Receive message failed" c)
            ∨ (∃ c : Int, e = failure.proconn_error "Received message from unexpected source" c)
            ∨ (∃ c : Int, e = failure.proconn_error "Received error" c)
            ∨ (∃ m, e = failure.handler_exception m)) := by
  have hrun : (∃ c : Int, (run self tid reg recv_fuel recvs fuel).status
          = Completion.raised (failure.system_error c "Couldn't register socket"))
      ∨ (∃ c : Int, (run self tid reg recv_fuel recvs fuel).status
          = Completion.raised (failure.proconn_error "Receive message failed" c))
      ∨ (∃ c : Int, (run self tid reg recv_fuel recvs fuel).status
          = Completion.raised
              (failure.proconn_error "Received message from unexpected source" c))
      ∨ (∃ c : Int, (run self tid reg recv_fuel recvs fuel).status
          = Completion.raised (failure.proconn_error "Received error" c))
      ∨ (∃ m, (run self tid reg recv_fuel recvs fuel).status
          = Completion.raised (failure.handler_exception m))
      ∨ (run self tid reg recv_fuel recvs fuel).status = Completion.running := by
    unfold run
    rw [(control_send_status self tid reg).1]
    by_cases hs : (reg.bytes < 0 ∨ reg.bytes ≠ 56) ∧ reg.errno ≠ 0
    · rw [if_pos hs]
      exact Or.inl ⟨_, rfl⟩
    · rw [if_neg hs]
      exact Or.inr (run_loop_status self recv_fuel recvs fuel 0)
  refine ⟨?_, ?_, ?_⟩
  · intro hret
    rcases hrun with ⟨c, h⟩ | ⟨c, h⟩ | ⟨c, h⟩ | ⟨c, h⟩ | ⟨m, h⟩ | h <;>
      rw [h] at hret <;> exact absurd hret (by simp)
  · intro r rc hrc
    rcases socket_recv_status self recv_fuel r with
      h | ⟨c, h⟩ | ⟨c, h⟩ | ⟨c, h⟩ | ⟨m, h⟩ | h <;> rw [h] at hrc
    · simp only [Completion.returned.injEq] at hrc
      exact hrc.symm
    all_goals exact absurd hrc (by simp)
  · intro e he
    rcases hrun with ⟨c, h⟩ | ⟨c, h⟩ | ⟨c, h⟩ | ⟨c, h⟩ | ⟨m, h⟩ | h <;> rw [h] at he
    · simp only [Completion.raised.injEq] at he
      exact Or.inl ⟨c, he.symm⟩
    · simp only [Completion.raised.injEq] at he
      exact Or.inr (Or.inl ⟨c, he.symm⟩)
    · simp only [Completion.raised.injEq] at he
      exact Or.inr (Or.inr (Or.inl ⟨c, he.symm⟩))
    · simp only [Completion.raised.injEq] at he
      exact Or.inr (Or.inr (Or.inr (Or.inl ⟨c, he.symm⟩)))
    · simp only [Completion.raised.injEq] at he
      exact Or.inr (Or.inr (Or.inr (Or.inr ⟨m, he.symm⟩)))
    · exact absurd he (by simp)

/-! ## The stated length -/

/-- C20: for every payload, every set of handlers and any two stated lengths, the
decoder calls the same kind of handler (or none) and the events it delivers are
equal once the parent pair of a coredump or exit event is blanked; for every tag
other than Coredump and Exit the two decodings are equal altogether, so Fork,
Exec, Uid, Gid, Sid, Ptrace and Comm events are read from their fixed offsets
whatever length is stated. -/
theorem stated_length_only_affects_parent (cb : event_callbacks) (data : List Nat)
    (len1 len2 : Nat) :
    (dispatch_event cb data len1).calls.map Invocation.kind
        = (dispatch_event cb data len2).calls.map Invocation.kind
      ∧ (dispatch_event cb data len1).calls.map Invocation.without_parent
        = (dispatch_event cb data len2).calls.map Invocation.without_parent
      ∧ (read_u32 data 0 ≠ 0x40000000 → read_u32 data 0 ≠ 0x80000000 →
          dispatch_event cb data len1 = dispatch_event cb data len2) := by
  by_cases c8 : read_u32 data 0 = 0x40000000
  · refine ⟨?_, ?_, fun h => absurd c8 h⟩
    · simp only [dispatch_event, offsetof_what, c8, what.value, call_if_set]
      cases cb.coredump <;> simp [Outcome.ret, Invocation.kind]
    · simp only [dispatch_event, offsetof_what, c8, what.value, call_if_set]
      cases cb.coredump <;> simp [Outcome.ret, Invocation.without_parent]
  · by_cases c9 : read_u32 data 0 = 0x80000000
    · refine ⟨?_, ?_, fun _ h => absurd c9 h⟩
      · simp only [dispatch_event, offsetof_what, c9, what.value, call_if_set]
        cases cb.exit <;> simp [Outcome.ret, Invocation.kind]
      · simp only [dispatch_event, offsetof_what, c9, what.value, call_if_set]
        cases cb.exit <;> simp [Outcome.ret, Invocation.without_parent]
    · have heq : dispatch_event cb data len1 = dispatch_event cb data len2 := by
        simp only [dispatch_event, offsetof_what, what.value, c8, c9, if_false]
      exact ⟨by rw [heq], by rw [heq], fun _ _ => heq⟩

/-- Witness of C20: the sample Fork message decoded with stated length 0 delivers
the same event as with stated length 40. -/
theorem stated_length_only_affects_parent_witness :
    (read_u32 sample_fork 0 ≠ 0x40000000 ∧ read_u32 sample_fork 0 ≠ 0x80000000)
      ∧ dispatch_event all_callbacks sample_fork 0
        = { calls := [Invocation.fork
              { meta := { cpu := 3, timestamp_ns := 5000000000 }
                parent := { tid := 651, pid := 650 }
                child := { tid := 700, pid := 700 } }]
            status := Completion.returned () } :=
  ⟨⟨by decide, by decide⟩,
    ((stated_length_only_affects_parent all_callbacks sample_fork 0 40).2.2
      (by decide) (by decide)).trans (by decide)⟩

/-! ## Termination of the envelope walk -/

theorem nth_header_fixed (buffer : List Nat) (p : Nat × Int)
    (hfix : NLMSG_NEXT buffer p.1 p.2 = p) : ∀ k, nth_header buffer k p = p := by
  intro k
  induction k with
  | zero => rfl
  | succ k ih => rw [nth_header, hfix, ih]

theorem nth_header_add (buffer : List Nat) (j : Nat) :
    ∀ (k : Nat) (p : Nat × Int),
      nth_header buffer (k + j) p = nth_header buffer k (nth_header buffer j p) := by
  induction j with
  | zero => intro k p; rfl
  | succ j ih =>
    intro k p
    rw [← Nat.add_assoc, nth_header, ih]
    rfl

theorem NLMSG_OK_bounds (buffer : List Nat) (nl_hdr : Nat) (bytes : Int)
    (hok : NLMSG_OK buffer nl_hdr bytes = true) :
    16 ≤ bytes ∧ 16 ≤ nlmsg_len buffer nl_hdr ∧ (nlmsg_len buffer nl_hdr : Int) ≤ bytes := by
  simpa [NLMSG_OK, sizeof_nlmsghdr, and_assoc] using hok

theorem NLMSG_NEXT_decreases (buffer : List Nat) (nl_hdr : Nat) (bytes : Int)
    (hok : NLMSG_OK buffer nl_hdr bytes = true) (hsmall : bytes < 4294967293) :
    (NLMSG_NEXT buffer nl_hdr bytes).2 = bytes - (NLMSG_ALIGN (nlmsg_len buffer nl_hdr) : Int)
      ∧ NLMSG_ALIGN (nlmsg_len buffer nl_hdr) % 4 = 0
      ∧ nlmsg_len buffer nl_hdr ≤ NLMSG_ALIGN (nlmsg_len buffer nl_hdr)
      ∧ NLMSG_ALIGN (nlmsg_len buffer nl_hdr) < nlmsg_len buffer nl_hdr + 4
      ∧ 16 ≤ NLMSG_ALIGN (nlmsg_len buffer nl_hdr) := by
  obtain ⟨_, h16, hle⟩ := NLMSG_OK_bounds buffer nl_hdr bytes hok
  refine ⟨rfl, ?_, ?_, ?_, ?_⟩ <;> simp only [NLMSG_ALIGN] <;> omega

theorem socket_recv_loop_terminates (cb : event_callbacks) (buffer : List Nat) (fuel : Nat) :
    ∀ (nl_hdr : Nat) (bytes : Int), bytes < 4294967293 → bytes < 16 * (fuel : Int) → 0 < fuel →
      (∀ k, NLMSG_OK buffer (nth_header buffer k (nl_hdr, bytes)).1
          (nth_header buffer k (nl_hdr, bytes)).2 = true →
        nlmsg_type buffer (nth_header buffer k (nl_hdr, bytes)).1 ≠ NLMSG_NOOP) →
      (socket_recv_loop cb buffer fuel nl_hdr bytes).status ≠ Completion.running := by
  induction fuel with
  | zero => intro _ _ _ _ h; omega
  | succ n ih =>
    intro nl_hdr bytes hsmall hfuel _ hnoop
    unfold socket_recv_loop
    by_cases hok : NLMSG_OK buffer nl_hdr bytes = true
    · have h0 : nlmsg_type buffer nl_hdr ≠ NLMSG_NOOP := hnoop 0 hok
      obtain ⟨hb16, _, _⟩ := NLMSG_OK_bounds buffer nl_hdr bytes hok
      obtain ⟨hnext, _, _, _, halign⟩ := NLMSG_NEXT_decreases buffer nl_hdr bytes hok hsmall
      simp only [hok, if_true, h0, if_false]
      by_cases herr : nlmsg_type buffer nl_hdr = NLMSG_ERROR
          ∨ nlmsg_type buffer nl_hdr = NLMSG_OVERRUN
      · simp [herr, Outcome.throw]
      · simp only [herr, if_false]
        rcases dispatch_event_status cb (cn_msg_data buffer (NLMSG_DATA nl_hdr))
            (cn_msg_len buffer (NLMSG_DATA nl_hdr)) with hd | ⟨m, hd⟩
        · simp only [Outcome.and_then, hd]
          by_cases hdone : nlmsg_type buffer nl_hdr = NLMSG_DONE
          · simp [hdone, Outcome.ret]
          · simp only [hdone, if_false]
            apply ih
            · rw [hnext]; omega
            · rw [hnext]; omega
            · omega
            · intro k hk
              exact hnoop (k + 1) hk
        · simp [Outcome.and_then, hd]
    · simp [hok, Outcome.ret]

/-- C19: for a received datagram of n > 0 bytes from the kernel peer that holds no
no-op envelope (a count `recvfrom` can hand back: at most the buffer size and at
most `MAX_RW_COUNT`), the envelope walk has ended once floor(n / 16) + 1 loop
tests are allowed, that is after at most floor(n / 16) iterations.  An iteration
is entered only with at least 16 bytes remaining and a stated length between 16
and the remaining count, and `NLMSG_NEXT` lowers a remaining count of at most n
by the stated length rounded up to a multiple of 4, which is at least 16. -/
theorem envelope_walk_terminates (self : proconn) (fuel : Nat) (r : recvfrom_result) (n : Nat)
    (hn : r.bytes = (n : Int)) (hpos : 0 < n) (hrecv : r.receivable self = true)
    (hpeer : r.addr.nl_pid = self._kernel_addr.nl_pid)
    (hnoop : ∀ k, NLMSG_OK r.buffer (nth_header r.buffer k (0, r.bytes)).1
        (nth_header r.buffer k (0, r.bytes)).2 = true →
      nlmsg_type r.buffer (nth_header r.buffer k (0, r.bytes)).1 ≠ NLMSG_NOOP)
    (hfuel : n / 16 + 1 ≤ fuel) :
    (socket_recv self fuel r).status ≠ Completion.running
      ∧ (∀ (nl_hdr : Nat) (bytes : Int), NLMSG_OK r.buffer nl_hdr bytes = true →
          16 ≤ bytes ∧ 16 ≤ nlmsg_len r.buffer nl_hdr
            ∧ (nlmsg_len r.buffer nl_hdr : Int) ≤ bytes)
      ∧ (∀ (nl_hdr : Nat) (bytes : Int), NLMSG_OK r.buffer nl_hdr bytes = true →
          bytes ≤ r.bytes →
          (NLMSG_NEXT r.buffer nl_hdr bytes).2
              = bytes - (NLMSG_ALIGN (nlmsg_len r.buffer nl_hdr) : Int)
            ∧ NLMSG_ALIGN (nlmsg_len r.buffer nl_hdr) % 4 = 0
            ∧ nlmsg_len r.buffer nl_hdr ≤ NLMSG_ALIGN (nlmsg_len r.buffer nl_hdr)
            ∧ NLMSG_ALIGN (nlmsg_len r.buffer nl_hdr) < nlmsg_len r.buffer nl_hdr + 4
            ∧ 16 ≤ NLMSG_ALIGN (nlmsg_len r.buffer nl_hdr)) := by
  have hcap : r.bytes ≤ 2147479552 := by
    simp only [recvfrom_result.receivable, MAX_RW_COUNT, Bool.and_eq_true,
      decide_eq_true_eq] at hrecv
    exact_mod_cast hrecv.2
  refine ⟨?_, fun h b hok => NLMSG_OK_bounds r.buffer h b hok,
    fun h b hok hb => NLMSG_NEXT_decreases r.buffer h b hok (by omega)⟩
  have hnb : ¬ r.bytes ≤ 0 := by omega
  unfold socket_recv
  simp only [hnb, if_false, hpeer, ne_eq, not_true_eq_false]
  exact socket_recv_loop_terminates self._callbacks r.buffer fuel 0 r.bytes (by omega)
    (by omega) (by omega) hnoop

theorem sample_two_messages_no_noop :
    ∀ k, NLMSG_OK sample_two_messages.buffer
        (nth_header sample_two_messages.buffer k (0, sample_two_messages.bytes)).1
        (nth_header sample_two_messages.buffer k (0, sample_two_messages.bytes)).2 = true →
      nlmsg_type sample_two_messages.buffer
        (nth_header sample_two_messages.buffer k (0, sample_two_messages.bytes)).1
          ≠ NLMSG_NOOP := by
  have h2 : nth_header sample_two_messages.buffer 2 (0, sample_two_messages.bytes)
      = (152, 0) := by decide
  have hfix : ∀ k, nth_header sample_two_messages.buffer k (152, 0) = (152, 0) :=
    nth_header_fixed _ _ (by decide)
  intro k
  match k with
  | 0 => decide
  | 1 => decide
  | k + 2 =>
    rw [nth_header_add _ 2 k, h2, hfix k]
    decide

/-- Witness of C19: the 152-byte datagram of two messages in the 2048-byte buffer of
the sample engine; the walk has ended within 152 / 16 + 1 = 10 loop tests. -/
theorem envelope_walk_terminates_witness :
    (sample_two_messages.bytes = ((152 : Nat) : Int)
        ∧ sample_two_messages.receivable (sample_engine all_callbacks) = true
        ∧ 152 / 16 + 1 ≤ 10)
      ∧ (socket_recv (sample_engine all_callbacks) 10 sample_two_messages).status
          ≠ Completion.running :=
  ⟨⟨by decide, by decide, by decide⟩,
    (envelope_walk_terminates (sample_engine all_callbacks) 10 sample_two_messages 152
      (by decide) (by decide) (by decide) (by decide) sample_two_messages_no_noop
      (by decide)).1⟩

/-! ## `stop()` when the unregister send fails -/

theorem socket_unregister_state (self : proconn) (tid : Nat) (res : sendmsg_result) :
    (socket_unregister self tid res).state = self := by
  unfold socket_unregister
  simp only []
  split
  · rfl
  · rfl

/-- C21: `stop()` is atomic on failure.  When the socket handle is valid and the
unregister send fails (`sendmsg` hands back a negative or short count, and
`errno` holds its error), `stop()` throws the `system_error` of
`socket_unregister`, makes the one `sendmsg` call and no `close`, and leaves the
engine as it was, handle included; a later `stop()` starts with the unregister
send again. -/
theorem stop_keeps_state_when_unregister_throws (self : proconn) (tid : Nat)
    (res : sendmsg_result) (hvalid : 0 ≤ self._socket)
    (hfail : res.bytes < 0 ∨ res.bytes ≠ 56) (herrno : res.errno ≠ 0) :
    (stop self tid res).status
        = Completion.raised (failure.system_error res.errno "Couldn't unregister socket")
      ∧ (stop self tid res).state = self
      ∧ (stop self tid res).syscalls
        = [Syscall.sendmsg self._socket self._kernel_addr
            (send_op_iov tid PROC_CN_MCAST_IGNORE)]
      ∧ (∀ (tid2 : Nat) (res2 : sendmsg_result), ∃ rest,
          (stop (stop self tid res).state tid2 res2).syscalls
            = Syscall.sendmsg self._socket self._kernel_addr
                (send_op_iov tid2 PROC_CN_MCAST_IGNORE) :: rest) := by
  have hs : ¬ self._socket < 0 := by omega
  have hstatus : (socket_unregister self tid res).status
      = Completion.raised (failure.system_error res.errno "Couldn't unregister socket") := by
    rw [(control_send_status self tid res).2, if_pos ⟨hfail, herrno⟩]
  have hsys : ∀ (t : Nat) (q : sendmsg_result), (socket_unregister self t q).syscalls
      = [Syscall.sendmsg self._socket self._kernel_addr
          (send_op_iov t PROC_CN_MCAST_IGNORE)] :=
    fun t q => (socket_register_syscalls self t q).2
  have hstate : (stop self tid res).state = self := by
    unfold stop
    simp only [hs, if_false, hstatus, socket_unregister_state]
  refine ⟨?_, hstate, ?_, ?_⟩
  · unfold stop
    simp only [hs, if_false, hstatus]
  · unfold stop
    simp only [hs, if_false, hstatus, hsys]
  · intro tid2 res2
    rw [hstate]
    unfold stop
    simp only [hs, if_false]
    cases hu : (socket_unregister self tid2 res2).status with
    | returned u => exact ⟨[Syscall.close (socket_unregister self tid2 res2).state._socket], by
        simp only [hsys, List.singleton_append]⟩
    | raised e => exact ⟨[], by simp only [hsys]⟩
    | running => exact ⟨[], by simp only [hsys]⟩

/-- Witness of C21: the unregister send of the sample engine (descriptor 3) fails
with -1 and errno 111; `stop()` throws, has not closed descriptor 3, and the
handle is still 3. -/
theorem stop_keeps_state_when_unregister_throws_witness :
    ((0 : Int) ≤ (sample_engine no_callbacks)._socket)
      ∧ (stop (sample_engine no_callbacks) 4242 { bytes := -1, errno := 111 }).status
          = Completion.raised (failure.system_error 111 "Couldn't unregister socket")
      ∧ (stop (sample_engine no_callbacks) 4242 { bytes := -1, errno := 111 }).syscalls
          = [Syscall.sendmsg 3 build_kernel_addr (send_op_iov 4242 PROC_CN_MCAST_IGNORE)]
      ∧ (stop (sample_engine no_callbacks) 4242 { bytes := -1, errno := 111 }).state._socket
          = 3 :=
  ⟨by decide,
    (stop_keeps_state_when_unregister_throws (sample_engine no_callbacks) 4242
      { bytes := -1, errno := 111 } (by decide) (Or.inl (by decide)) (by decide)).1,
    (stop_keeps_state_when_unregister_throws (sample_engine no_callbacks) 4242
      { bytes := -1, errno := 111 } (by decide) (Or.inl (by decide)) (by decide)).2.2.1,
    congrArg proconn._socket
      (stop_keeps_state_when_unregister_throws (sample_engine no_callbacks) 4242
        { bytes := -1, errno := 111 } (by decide) (Or.inl (by decide)) (by decide)).2.1⟩

end rci
